import Mathlib

/-!
AmethystXRenderEngineModule, the render thread.

A shallow embedding of `src/RenderThread.h` / `src/RenderThread.cpp`.

* The object `RenderThread` is a record of its C++ members plus one history
  field `calls`, the chronological list of calls made at the boundary of the
  object (public entry points, queue pops, closure invocations, GL / GLFW calls,
  writes to `std::cerr`).
* Answers of the outside world (does `glfwInit` succeed, which ids does GL hand
  out, did a shader compile, was the window asked to close, what size is the
  surface) are explicit arguments (`InitEnv`, `SetupEnv`, `FrameEnv`).
* A GPU task is either the closure built by `loop()` itself (`demoSetup`) or a
  closure handed in by a caller.  A caller's closure cannot reach the private
  members; it is represented by an identifier together with whether it leaves by
  an exception.  Closures that re-enter the public interface are outside the
  model.
* The two threads are interleaved at the granularity of one loop iteration:
  an `Event` is a public call made by a producer or one step of the render
  thread (`threadInit`: lines 90-166 of `loop()`, `frame`: one evaluation of the
  `while` condition followed by the loop body or by the exit path).  `stop()` is one
  event: it clears the flag and waits, during which the render thread runs on to
  its return.
-/

namespace Amethyst

/-! ## Data model (`RenderThread.h`) -/

/-- Model of `struct DrawCommand`; the matrix is carried as the bit patterns of its 16 floats. -/
structure DrawCommand where
  meshId : Nat
  materialId : Nat
  modelMatrix : List Nat
  deriving DecidableEq, Repr

/-- Model of `std::vector<DrawCommand>`: one batch. -/
abbrev DrawList := List DrawCommand

/-- The elements of `gpuTasks_` (`std::function<void()>`). -/
inductive GpuTask where
  | demoSetup
  | user (id : Nat) (raises : Bool)
  deriving DecidableEq, Repr

/-- The texts written to `std::cerr`. -/
inductive LogMsg where
  | glfwInitFailed
  | createWindowFailed
  | gladFailed
  | shaderCompileError
  | programLinkError
  | gpuTaskException
  deriving DecidableEq, Repr

/-- The two shader kinds used (`GL_VERTEX_SHADER`, `GL_FRAGMENT_SHADER`). -/
inductive ShaderType where
  | vertex
  | fragment
  deriving DecidableEq, Repr

/-- The four window hints set by `initGLFW`. -/
inductive WindowHint where
  | contextVersionMajor
  | contextVersionMinor
  | openglProfile
  | visible
  deriving DecidableEq, Repr

/-- One entry of the history. -/
inductive Call where
  | submitDrawList (b : DrawList)
  | scheduleGPU (t : GpuTask)
  | notifyOne
  | notifyAll
  | threadSpawn
  | threadJoin
  | waitFor (ms : Nat)
  | popFront (b : DrawList)
  | invoke (t : GpuTask)
  | cerr (m : LogMsg)
  | glfwInit
  | glfwWindowHint (h : WindowHint) (v : Nat)
  | glfwCreateWindow (w h : Nat)
  | glfwTerminate
  | glfwDestroyWindow (win : Nat)
  | glfwMakeContextCurrent (win : Nat)
  | glfwSwapInterval (n : Nat)
  | gladLoadGLLoader
  | glfwWindowShouldClose (win : Nat)
  | glfwSwapBuffers (win : Nat)
  | glfwPollEvents
  | glViewport (x y w h : Nat)
  | glClearColor (r g b a : Nat)
  | glClear (colorBit depthBit : Bool)
  | glUseProgram (p : Nat)
  | glBindVertexArray (v : Nat)
  | glDrawArrays (first count : Nat)
  | renderList (list : DrawList)
  | glCreateShader (t : ShaderType)
  | glShaderSource (s : Nat)
  | glCompileShader (s : Nat)
  | glGetShaderiv (s : Nat)
  | glGetShaderInfoLog (s : Nat)
  | glCreateProgram
  | glAttachShader (p s : Nat)
  | glLinkProgram (p : Nat)
  | glGetProgramiv (p : Nat)
  | glGetProgramInfoLog (p : Nat)
  | glDeleteShader (s : Nat)
  | glGenVertexArrays
  | glGenBuffers
  | glBindBuffer (b : Nat)
  | glBufferData (size : Nat)
  | glEnableVertexAttribArray (i : Nat)
  | glVertexAttribPointer (index size stride offset : Nat)
  | glDeleteBuffers (b : Nat)
  | glDeleteVertexArrays (v : Nat)
  | glDeleteProgram (p : Nat)
  deriving DecidableEq, Repr

/-- State of `th_` together with the progress of the thread it denotes:
`notAThread` (not joinable), `spawned` (created, `loop()` not yet begun),
`looping` (at the head of the `while`), `exited` (`loop()` returned, not yet joined). -/
inductive ThreadState where
  | notAThread
  | spawned
  | looping
  | exited
  deriving DecidableEq, Repr

/-- Model of `class RenderThread`: its members, and the history `calls`. -/
structure RenderThread where
  th_ : ThreadState
  running_ : Bool
  drawQueue_ : List DrawList
  gpuTasks_ : List GpuTask
  windowHandle_ : Option Nat
  triangleVAO : Nat
  triangleVBO : Nat
  triangleProgram : Nat
  triangleReady : Bool
  calls : List Call
  deriving DecidableEq, Repr

/-- Model of `th_.joinable()`. -/
def ThreadState.joinable : ThreadState → Bool
  | .notAThread => false
  | _ => true

/-- What `glfwInit`, `glfwCreateWindow` and `gladLoadGLLoader` answer. -/
structure InitEnv where
  glfwInitOk : Bool
  window : Option Nat
  gladOk : Bool
  deriving DecidableEq, Repr

/-- What `glCreateShader` and `GL_COMPILE_STATUS` answer for one shader. -/
structure ShaderEnv where
  id : Nat
  compileOk : Bool
  deriving DecidableEq, Repr

/-- What GL answers during one run of the demonstration setup closure. -/
structure SetupEnv where
  vs : ShaderEnv
  fs : ShaderEnv
  prog : Nat
  linkOk : Bool
  vao : Nat
  vbo : Nat
  deriving DecidableEq, Repr

/-- The outside world as seen by one loop iteration: the answer of
`glfwWindowShouldClose`, the current size of the drawable surface, and the GL
answers for the task at each position of the drained list. -/
structure FrameEnv where
  shouldClose : Bool
  surfaceWidth : Nat
  surfaceHeight : Nat
  gl : Nat → SetupEnv

/-- How control leaves a piece of code. -/
inductive Outcome where
  | returned
  | raised
  deriving DecidableEq, Repr

/-! ## Operations (`RenderThread.cpp`) -/

/-- Append entries to the history. -/
def emits (cs : List Call) (s : RenderThread) : RenderThread :=
  { s with calls := s.calls ++ cs }

/-- Model of `RenderThread::RenderThread() : windowHandle_(nullptr) {}` with the member initialisers. -/
def RenderThread.new : RenderThread :=
  { th_ := .notAThread, running_ := false, drawQueue_ := [], gpuTasks_ := [],
    windowHandle_ := none, triangleVAO := 0, triangleVBO := 0, triangleProgram := 0,
    triangleReady := false, calls := [] }

/-- Model of `compileShader` (lines 12-22): returns the shader id whatever the compile status. -/
def compileShader (type : ShaderType) (r : ShaderEnv) (s : RenderThread) : Nat × RenderThread :=
  let s := emits [.glCreateShader type, .glShaderSource r.id, .glCompileShader r.id,
    .glGetShaderiv r.id] s
  let s := if !r.compileOk then emits [.glGetShaderInfoLog r.id, .cerr .shaderCompileError] s else s
  (r.id, s)

/-- Model of `RenderThread::start` (lines 27-31).  The move assignment to `th_` needs `th_` not
joinable; `Wf` below states it and `run_wf` shows it holds whenever `start` is called. -/
def start (s : RenderThread) : RenderThread :=
  if s.running_ then s
  else { s with running_ := true, th_ := .spawned, calls := s.calls ++ [.threadSpawn] }

/-- Model of `RenderThread::submitDrawList` (lines 40-46). -/
def submitDrawList (list : DrawList) (s : RenderThread) : RenderThread :=
  { s with drawQueue_ := s.drawQueue_ ++ [list],
           calls := s.calls ++ [.submitDrawList list, .notifyOne] }

/-- Model of `RenderThread::scheduleGPU` (lines 48-54). -/
def scheduleGPU (task : GpuTask) (s : RenderThread) : RenderThread :=
  { s with gpuTasks_ := s.gpuTasks_ ++ [task],
           calls := s.calls ++ [.scheduleGPU task, .notifyOne] }

/-- Model of `RenderThread::initGLFW` (lines 56-73). -/
def initGLFW (ie : InitEnv) (s : RenderThread) : RenderThread :=
  let s := emits [.glfwInit] s
  if !ie.glfwInitOk then emits [.cerr .glfwInitFailed] s
  else
    let s := emits [.glfwWindowHint .contextVersionMajor 3, .glfwWindowHint .contextVersionMinor 3,
      .glfwWindowHint .openglProfile 0x00032001, .glfwWindowHint .visible 1, .glfwCreateWindow 800 600] s
    match ie.window with
    | none => emits [.cerr .createWindowFailed, .glfwTerminate] s
    | some win => { s with windowHandle_ := some win }

/-- Model of `RenderThread::cleanupGLFW` (lines 75-87). -/
def cleanupGLFW (s : RenderThread) : RenderThread :=
  let s := if s.triangleReady then
      { emits [.glDeleteBuffers s.triangleVBO, .glDeleteVertexArrays s.triangleVAO,
          .glDeleteProgram s.triangleProgram] s with triangleReady := false }
    else s
  let s := match s.windowHandle_ with
    | some win => { emits [.glfwDestroyWindow win] s with windowHandle_ := none }
    | none => s
  emits [.glfwTerminate] s

/-- Model of `RenderThread::renderList` (lines 205-207): the body does nothing; the history
records the dispatch. -/
def renderList (list : DrawList) (s : RenderThread) : RenderThread :=
  emits [.renderList list] s

/-- The closure passed to `scheduleGPU` by `loop()` (lines 103-166). -/
def demoSetup (gl : SetupEnv) (s : RenderThread) : RenderThread :=
  let vsId := (compileShader .vertex gl.vs s).1
  let s := (compileShader .vertex gl.vs s).2
  let fsId := (compileShader .fragment gl.fs s).1
  let s := (compileShader .fragment gl.fs s).2
  let prog := gl.prog
  let s := emits [.glCreateProgram, .glAttachShader prog vsId, .glAttachShader prog fsId,
    .glLinkProgram prog, .glGetProgramiv prog] s
  let s := if !gl.linkOk then emits [.glGetProgramInfoLog prog, .cerr .programLinkError] s else s
  let s := emits [.glDeleteShader vsId, .glDeleteShader fsId, .glGenVertexArrays, .glGenBuffers,
    .glBindVertexArray gl.vao, .glBindBuffer gl.vbo, .glBufferData 72,
    .glEnableVertexAttribArray 0, .glVertexAttribPointer 0 3 24 0, .glEnableVertexAttribArray 0,
    .glVertexAttribPointer 1 3 24 12, .glEnableVertexAttribArray 1, .glBindVertexArray 0] s
  { s with triangleVAO := gl.vao, triangleVBO := gl.vbo, triangleProgram := prog,
           triangleReady := true }

/-- The call `t()` of line 181. -/
def invoke (t : GpuTask) (gl : SetupEnv) (s : RenderThread) : Outcome × RenderThread :=
  match t with
  | .demoSetup => (.returned, demoSetup gl (emits [.invoke t] s))
  | .user _ raises => (if raises then .raised else .returned, emits [.invoke t] s)

/-- Line 181: `try { t(); } catch (...) { std::cerr << ...; }`. -/
def tryTask (t : GpuTask) (gl : SetupEnv) (s : RenderThread) : Outcome × RenderThread :=
  match invoke t gl s with
  | (.returned, s1) => (.returned, s1)
  | (.raised, s1) => (.returned, emits [.cerr .gpuTaskException] s1)

/-- Lines 180-182: `for (auto &t : tasks) { ... }`; `i` is the position of the next task. -/
def runTasks (gl : Nat → SetupEnv) : Nat → List GpuTask → RenderThread → Outcome × RenderThread
  | _, [], s => (.returned, s)
  | i, t :: ts, s =>
    match tryTask t (gl i) s with
    | (.raised, s1) => (.raised, s1)
    | (.returned, s1) => runTasks gl (i + 1) ts s1

/-- Lines 173-178: the wait and the two queue operations under the lock.  Returns the
locals `list` and `tasks` with the new state. -/
def drain (s : RenderThread) : DrawList × List GpuTask × RenderThread :=
  let s := emits [.waitFor 1] s
  let r : DrawList × RenderThread :=
    match s.drawQueue_ with
    | [] => ([], s)
    | b :: rest => (b, emits [.popFront b] { s with drawQueue_ := rest })
  let s := r.2
  if s.gpuTasks_.isEmpty then (r.1, [], s)
  else (r.1, s.gpuTasks_, { s with gpuTasks_ := [] })

/-- Lines 184-199: viewport, clear, demonstration draw, list dispatch, swap, poll. -/
def present (win : Nat) (list : DrawList) (s : RenderThread) : RenderThread :=
  let s := emits [.glViewport 0 0 800 600, .glClearColor 100 120 150 1000, .glClear true true] s
  let s := if s.triangleReady then
      emits [.glUseProgram s.triangleProgram, .glBindVertexArray s.triangleVAO,
        .glDrawArrays 0 3, .glBindVertexArray 0, .glUseProgram 0] s
    else s
  let s := if list.isEmpty then s else renderList list s
  emits [.glfwSwapBuffers win, .glfwPollEvents] s

/-- One loop body (lines 170-199). -/
def cycle (e : FrameEnv) (s : RenderThread) : Outcome × RenderThread :=
  let win := s.windowHandle_.getD 0
  let d := drain s
  match runTasks e.gl 0 d.2.1 d.2.2 with
  | (.raised, s1) => (.raised, s1)
  | (.returned, s1) => (.returned, present win d.1 s1)

/-- Leaving the `while` (line 202) and returning from `loop()`. -/
def loopExit (s : RenderThread) : RenderThread :=
  { cleanupGLFW s with th_ := .exited }

/-- Lines 90-166 of `loop()`: up to the first evaluation of the `while` condition,
or an early return. -/
def loopEntry (ie : InitEnv) (s : RenderThread) : RenderThread :=
  let s := initGLFW ie s
  match s.windowHandle_ with
  | none => { s with th_ := .exited }
  | some win =>
    let s := emits [.glfwMakeContextCurrent win, .glfwSwapInterval 1, .gladLoadGLLoader] s
    if !ie.gladOk then
      { cleanupGLFW (emits [.cerr .gladFailed] s) with th_ := .exited }
    else
      { scheduleGPU .demoSetup s with th_ := .looping }

/-- One evaluation of `while (running_ && !glfwWindowShouldClose(win))` (line 168)
followed by the loop body, or by the exit path when the condition is false. -/
def frame (e : FrameEnv) (s : RenderThread) : RenderThread :=
  if s.running_ then
    let s := emits [.glfwWindowShouldClose (s.windowHandle_.getD 0)] s
    if !e.shouldClose then (cycle e s).2 else loopExit s
  else loopExit s

/-- A frame environment in which nothing happens. -/
def FrameEnv.idle : FrameEnv :=
  { shouldClose := false, surfaceWidth := 800, surfaceHeight := 600,
    gl := fun _ => { vs := { id := 0, compileOk := true }, fs := { id := 0, compileOk := true },
                     prog := 0, linkOk := true, vao := 0, vbo := 0 } }

/-- Model of `th_.join()` as called by `stop()`: the caller waits until `loop()` has returned. -/
def join (ie : InitEnv) (s : RenderThread) : RenderThread :=
  let s := if s.th_ = .spawned then loopEntry ie s else s
  let s := if s.th_ = .looping then frame FrameEnv.idle s else s
  { s with th_ := .notAThread, calls := s.calls ++ [.threadJoin] }

/-- Model of `RenderThread::stop` (lines 33-38); `ie` is consulted only if the render thread
has not yet begun `loop()`. -/
def stop (ie : InitEnv) (s : RenderThread) : RenderThread :=
  if !s.running_ then s
  else
    let s := emits [.notifyAll] { s with running_ := false }
    if s.th_.joinable then join ie s else s

/-! ## Runs -/

/-- One step of the system: a public call by a producer, or a step of the render thread. -/
inductive Event where
  | start
  | stop (ie : InitEnv)
  | submitDrawList (b : DrawList)
  | scheduleGPU (id : Nat) (raises : Bool)
  | threadInit (ie : InitEnv)
  | frame (e : FrameEnv)

/-- Effect of one event; a render-thread step is possible only in the matching state of
the thread and leaves the state alone otherwise. -/
def step (s : RenderThread) : Event → RenderThread
  | .start => start s
  | .stop ie => stop ie s
  | .submitDrawList b => submitDrawList b s
  | .scheduleGPU id raises => scheduleGPU (.user id raises) s
  | .threadInit ie => if s.th_ = .spawned then loopEntry ie s else s
  | .frame e => if s.th_ = .looping then frame e s else s

/-- Effect of a finite sequence of events. -/
def run (s : RenderThread) (evs : List Event) : RenderThread :=
  evs.foldl step s

/-! ## Reading the history -/

/-- The history entries added between `s0` and a later state `s`. -/
def emitted (s0 s : RenderThread) : List Call :=
  s.calls.drop s0.calls.length

/-- The batch of a pop entry. -/
def Call.popped : Call → Option DrawList
  | .popFront b => some b
  | _ => none

/-- The batch of a submission entry. -/
def Call.submitted : Call → Option DrawList
  | .submitDrawList b => some b
  | _ => none

/-- The task of an invocation entry. -/
def Call.invoked : Call → Option GpuTask
  | .invoke t => some t
  | _ => none

/-- The task of a scheduling entry. -/
def Call.scheduled : Call → Option GpuTask
  | .scheduleGPU t => some t
  | _ => none

/-- Viewport commands. -/
def Call.isViewport : Call → Bool
  | .glViewport _ _ _ _ => true
  | _ => false

/-- Batches popped from `drawQueue_`, in order. -/
def poppedOf (cs : List Call) : List DrawList := cs.filterMap Call.popped

/-- Batches passed to `submitDrawList`, in order. -/
def submittedOf (cs : List Call) : List DrawList := cs.filterMap Call.submitted

/-- Tasks invoked, in order. -/
def invokedOf (cs : List Call) : List GpuTask := cs.filterMap Call.invoked

/-- Tasks passed to `scheduleGPU`, in order. -/
def scheduledOf (cs : List Call) : List GpuTask := cs.filterMap Call.scheduled

/-- The viewport commands of a history. -/
def viewportsOf (cs : List Call) : List Call := cs.filter Call.isViewport

/-- Batches submitted by a sequence of events. -/
def batchesOf (evs : List Event) : List DrawList :=
  evs.filterMap fun e => match e with
    | .submitDrawList b => some b
    | _ => none

/-- Calls that occur while the drained tasks are executed (lines 180-182): the
invocation itself, what the demonstration setup does to GL, and writes to `std::cerr`. -/
def Call.taskPhase : Call → Bool
  | .invoke _ => true
  | .cerr _ => true
  | .glCreateShader _ => true
  | .glShaderSource _ => true
  | .glCompileShader _ => true
  | .glGetShaderiv _ => true
  | .glGetShaderInfoLog _ => true
  | .glCreateProgram => true
  | .glAttachShader _ _ => true
  | .glLinkProgram _ => true
  | .glGetProgramiv _ => true
  | .glGetProgramInfoLog _ => true
  | .glDeleteShader _ => true
  | .glGenVertexArrays => true
  | .glGenBuffers => true
  | .glBindVertexArray _ => true
  | .glBindBuffer _ => true
  | .glBufferData _ => true
  | .glEnableVertexAttribArray _ => true
  | .glVertexAttribPointer _ _ _ _ => true
  | _ => false

/-- The three GPU-object deletions of `cleanupGLFW`. -/
def Call.isDeletion : Call → Bool
  | .glDeleteBuffers _ => true
  | .glDeleteVertexArrays _ => true
  | .glDeleteProgram _ => true
  | _ => false

/-- Calls that only a loop body makes. -/
def Call.isCycleCall : Call → Bool
  | .waitFor _ => true
  | .popFront _ => true
  | .invoke _ => true
  | .glViewport _ _ _ _ => true
  | .glClearColor _ _ _ _ => true
  | .glClear _ _ => true
  | .glDrawArrays _ _ => true
  | .renderList _ => true
  | .glfwSwapBuffers _ => true
  | .glfwPollEvents => true
  | _ => false

/-- The history entry of the pop of line 176, if the queue is non-empty. -/
def popCalls (s : RenderThread) : List Call :=
  match s.drawQueue_ with
  | [] => []
  | b :: _ => [.popFront b]

/-- The local `list` of a loop body entered in state `s`. -/
def frontList (s : RenderThread) : DrawList :=
  match s.drawQueue_ with
  | [] => []
  | b :: _ => b

/-- The history of the demonstration draw (lines 188-194). -/
def demoDrawCalls (ready : Bool) (prog vao : Nat) : List Call :=
  if ready then
    [.glUseProgram prog, .glBindVertexArray vao, .glDrawArrays 0 3, .glBindVertexArray 0,
      .glUseProgram 0]
  else []

/-- The history of the dispatch of line 196. -/
def dispatchCalls (list : DrawList) : List Call :=
  if list.isEmpty then [] else [.renderList list]

/-- The history of one call of `compileShader`. -/
def compileCalls (ty : ShaderType) (r : ShaderEnv) : List Call :=
  [.glCreateShader ty, .glShaderSource r.id, .glCompileShader r.id, .glGetShaderiv r.id] ++
    (if !r.compileOk then [.glGetShaderInfoLog r.id, .cerr .shaderCompileError] else [])

/-- The history of one run of the demonstration setup closure. -/
def setupCalls (gl : SetupEnv) : List Call :=
  compileCalls .vertex gl.vs ++ compileCalls .fragment gl.fs ++
    [.glCreateProgram, .glAttachShader gl.prog gl.vs.id, .glAttachShader gl.prog gl.fs.id,
      .glLinkProgram gl.prog, .glGetProgramiv gl.prog] ++
    (if !gl.linkOk then [.glGetProgramInfoLog gl.prog, .cerr .programLinkError] else []) ++
    [.glDeleteShader gl.vs.id, .glDeleteShader gl.fs.id, .glGenVertexArrays, .glGenBuffers,
      .glBindVertexArray gl.vao, .glBindBuffer gl.vbo, .glBufferData 72,
      .glEnableVertexAttribArray 0, .glVertexAttribPointer 0 3 24 0, .glEnableVertexAttribArray 0,
      .glVertexAttribPointer 1 3 24 12, .glEnableVertexAttribArray 1, .glBindVertexArray 0]

/-- The history of line 181 for one task: the invocation, what the closure does, and
the handler's message if it raised. -/
def tryCalls (t : GpuTask) (gl : SetupEnv) : List Call :=
  match t with
  | .demoSetup => .invoke t :: setupCalls gl
  | .user _ raises => .invoke t :: (if raises then [.cerr .gpuTaskException] else [])

/-- The history of lines 180-182 for a list of tasks, the first at position `i`. -/
def tasksCalls (gl : Nat → SetupEnv) : Nat → List GpuTask → List Call
  | _, [] => []
  | i, t :: ts => tryCalls t (gl i) ++ tasksCalls gl (i + 1) ts

/-- The history of lines 184-199. -/
def presentCalls (win : Nat) (list : DrawList) (ready : Bool) (prog vao : Nat) : List Call :=
  [.glViewport 0 0 800 600, .glClearColor 100 120 150 1000, .glClear true true] ++
    demoDrawCalls ready prog vao ++ dispatchCalls list ++ [.glfwSwapBuffers win, .glfwPollEvents]

/-- How a later state `s1` relates to an earlier state `s`: the history only grows,
pops and submissions account for the draw queue, invocations and schedulings account
for the task queue, and the ready flag and the deletions are owed to a run of the
demonstration setup. -/
def Facts (s s1 : RenderThread) : Prop :=
  s1.calls = s.calls ++ emitted s s1 ∧
  poppedOf (emitted s s1) ++ s1.drawQueue_ = s.drawQueue_ ++ submittedOf (emitted s s1) ∧
  invokedOf (emitted s s1) ++ s1.gpuTasks_ = s.gpuTasks_ ++ scheduledOf (emitted s s1) ∧
  (s1.triangleReady = true →
    s.triangleReady = true ∨ GpuTask.demoSetup ∈ invokedOf (emitted s s1)) ∧
  ((emitted s s1).any Call.isDeletion = true →
    s.triangleReady = true ∨ GpuTask.demoSetup ∈ invokedOf (emitted s s1))

/-- Tasks handed in by a caller, as opposed to the closure built by the loop itself. -/
def GpuTask.isUser : GpuTask → Bool
  | .demoSetup => false
  | .user _ _ => true

/-- Events in which no loop body runs: everything but a loop iteration whose window is
still open. -/
def Event.noCycle : Event → Bool
  | .frame e => e.shouldClose
  | _ => true

/-- A step that neither pops, submits, invokes nor runs a loop body: it leaves the draw
queue alone, extends the task queue by what it schedules, which is at most the
demonstration setup, does not set the ready flag, and deletes GPU objects only if the
ready flag was set. -/
def Quiet (s s1 : RenderThread) : Prop :=
  s1.calls = s.calls ++ emitted s s1 ∧
  poppedOf (emitted s s1) = [] ∧ submittedOf (emitted s s1) = [] ∧
  invokedOf (emitted s s1) = [] ∧ (emitted s s1).any Call.isCycleCall = false ∧
  ((emitted s s1).any Call.isDeletion = true → s.triangleReady = true) ∧
  s1.drawQueue_ = s.drawQueue_ ∧ s1.gpuTasks_ = s.gpuTasks_ ++ scheduledOf (emitted s s1) ∧
  (s1.triangleReady = true → s.triangleReady = true) ∧
  (scheduledOf (emitted s s1)).filter GpuTask.isUser = []

/-- A step in which no task is invoked: the task queue grows by what is scheduled. -/
def Still (s s1 : RenderThread) : Prop :=
  s1.calls = s.calls ++ emitted s s1 ∧
  invokedOf (emitted s s1) = [] ∧
  s1.gpuTasks_ = s.gpuTasks_ ++ scheduledOf (emitted s s1)

/-- The history of `cleanupGLFW` entered in state `s`. -/
def cleanupCalls (s : RenderThread) : List Call :=
  (if s.triangleReady then
      [.glDeleteBuffers s.triangleVBO, .glDeleteVertexArrays s.triangleVAO,
        .glDeleteProgram s.triangleProgram]
    else []) ++
  (match s.windowHandle_ with
    | some win => [.glfwDestroyWindow win]
    | none => []) ++ [.glfwTerminate]

/-- The history of one loop body entered in state `s`, given the ready flag and the
demonstration objects as they are after the tasks have run. -/
def cycleCalls (e : FrameEnv) (s : RenderThread) (ready : Bool) (prog vao : Nat) : List Call :=
  .waitFor 1 :: (popCalls s ++ (tasksCalls e.gl 0 s.gpuTasks_ ++
    presentCalls (s.windowHandle_.getD 0) (frontList s) ready prog vao))

/-- Entries that dispatch a draw or present the frame. -/
def Call.isDrawOrSwap : Call → Bool
  | .glDrawArrays _ _ => true
  | .renderList _ => true
  | .glfwSwapBuffers _ => true
  | _ => false

/-- Clear commands. -/
def Call.isClear : Call → Bool
  | .glClear _ _ => true
  | _ => false

/-- The message of the handler of line 181. -/
def Call.isTaskFault : Call → Bool
  | .cerr .gpuTaskException => true
  | _ => false

/-- User tasks that leave by an exception. -/
def GpuTask.raises : GpuTask → Bool
  | .demoSetup => false
  | .user _ r => r

/-- A successful start-up of window and loader. -/
def InitEnv.ok (win : Nat) : InitEnv :=
  { glfwInitOk := true, window := some win, gladOk := true }

/-- A frame environment whose window is still open, with a surface of the given size and
a vertex shader that does not compile. -/
def FrameEnv.resized (w h : Nat) : FrameEnv :=
  { shouldClose := false, surfaceWidth := w, surfaceHeight := h,
    gl := fun _ => { vs := { id := 1, compileOk := false }, fs := { id := 2, compileOk := true },
                     prog := 3, linkOk := true, vao := 4, vbo := 5 } }

/-- A frame environment whose window was asked to close. -/
def FrameEnv.closing : FrameEnv :=
  { FrameEnv.idle with shouldClose := true }

/-- A sample batch of one command. -/
def sampleBatch (n : Nat) : DrawList :=
  [{ meshId := n, materialId := n, modelMatrix := [] }]

/-- A controller that was started and whose render thread stands at the head of the loop,
the demonstration setup queued. -/
def startedState : RenderThread :=
  run RenderThread.new [.start, .threadInit (InitEnv.ok 9)]

/-- Thread creations. -/
def Call.isSpawn : Call → Bool
  | .threadSpawn => true
  | _ => false

/-- A step without a loop body: no entry of a loop body in the history, GPU objects
deleted only if the ready flag was set, and the ready flag not newly set. -/
def Calm (s s1 : RenderThread) : Prop :=
  s1.calls = s.calls ++ emitted s s1 ∧
  (emitted s s1).any Call.isCycleCall = false ∧
  ((emitted s s1).any Call.isDeletion = true → s.triangleReady = true) ∧
  (s1.triangleReady = true → s.triangleReady = true)

/-- Class invariant: `th_` is joinable only while `running_` is set, and outside the
loop the thread holds neither a window nor the demonstration objects. -/
def Wf (s : RenderThread) : Prop :=
  (s.running_ = false → s.th_ = .notAThread) ∧
  (s.th_ ≠ .looping → s.windowHandle_ = none ∧ s.triangleReady = false)

/-- Events by which a producer hands work over. -/
def Event.isSubmission : Event → Bool
  | .submitDrawList _ => true
  | .scheduleGPU _ _ => true
  | _ => false

/-- Events other than `stop`. -/
def Event.notStop : Event → Bool
  | .stop _ => false
  | _ => true

/-- Events other than a loop iteration of the render thread. -/
def Event.notFrame : Event → Bool
  | .frame _ => false
  | _ => true

/-- Tasks scheduled by a sequence of producer events. -/
def tasksOf (evs : List Event) : List GpuTask :=
  evs.filterMap fun e => match e with
    | .scheduleGPU id raises => some (.user id raises)
    | _ => none

/-! ## Basic facts -/

theorem emitted_of_calls {s0 s : RenderThread} {cs : List Call}
    (h : s.calls = s0.calls ++ cs) : emitted s0 s = cs := by
  simp [emitted, h]

theorem compileShader_eq (ty : ShaderType) (r : ShaderEnv) (s : RenderThread) :
    compileShader ty r s = (r.id, emits (compileCalls ty r) s) := by
  cases h : r.compileOk <;> simp [compileShader, compileCalls, emits, h]

theorem compileCalls_taskPhase (ty : ShaderType) (r : ShaderEnv) :
    (compileCalls ty r).all Call.taskPhase = true := by
  cases h : r.compileOk <;> simp [compileCalls, h, Call.taskPhase]

theorem setupCalls_taskPhase (gl : SetupEnv) : (setupCalls gl).all Call.taskPhase = true := by
  have h1 := compileCalls_taskPhase .vertex gl.vs
  have h2 := compileCalls_taskPhase .fragment gl.fs
  cases h : gl.linkOk <;> simp [setupCalls, h, h1, h2, Call.taskPhase]

theorem demoSetup_eq (gl : SetupEnv) (s : RenderThread) :
    demoSetup gl s =
      { s with calls := s.calls ++ setupCalls gl, triangleVAO := gl.vao, triangleVBO := gl.vbo,
               triangleProgram := gl.prog, triangleReady := true } := by
  cases h : gl.linkOk <;>
    simp [demoSetup, compileShader_eq, emits, setupCalls, h, List.append_assoc]

theorem tryTask_fst (t : GpuTask) (gl : SetupEnv) (s : RenderThread) :
    (tryTask t gl s).1 = .returned := by
  cases t with
  | demoSetup => rfl
  | user id raises => cases raises <;> rfl

theorem tryTask_snd (t : GpuTask) (gl : SetupEnv) (s : RenderThread) :
    (tryTask t gl s).2.calls = s.calls ++ tryCalls t gl ∧
    (tryTask t gl s).2.th_ = s.th_ ∧ (tryTask t gl s).2.running_ = s.running_ ∧
    (tryTask t gl s).2.drawQueue_ = s.drawQueue_ ∧ (tryTask t gl s).2.gpuTasks_ = s.gpuTasks_ ∧
    (tryTask t gl s).2.windowHandle_ = s.windowHandle_ ∧
    (tryTask t gl s).2.triangleReady = (s.triangleReady || decide (t = .demoSetup)) := by
  cases t with
  | demoSetup => simp [tryTask, invoke, demoSetup_eq, emits, tryCalls]
  | user id raises => cases raises <;> simp [tryTask, invoke, emits, tryCalls]

theorem tryCalls_taskPhase (t : GpuTask) (gl : SetupEnv) :
    (tryCalls t gl).all Call.taskPhase = true := by
  cases t with
  | demoSetup => simpa [tryCalls, Call.taskPhase] using setupCalls_taskPhase gl
  | user id raises => cases raises <;> simp [tryCalls, Call.taskPhase]

theorem tasksCalls_taskPhase (gl : Nat → SetupEnv) (i : Nat) (ts : List GpuTask) :
    (tasksCalls gl i ts).all Call.taskPhase = true := by
  induction ts generalizing i with
  | nil => rfl
  | cons t ts ih => simp only [tasksCalls, List.all_append, tryCalls_taskPhase, ih, Bool.and_self]

theorem runTasks_spec (gl : Nat → SetupEnv) (i : Nat) (ts : List GpuTask) (s : RenderThread) :
    (runTasks gl i ts s).1 = .returned ∧
    (runTasks gl i ts s).2.calls = s.calls ++ tasksCalls gl i ts ∧
    (runTasks gl i ts s).2.th_ = s.th_ ∧ (runTasks gl i ts s).2.running_ = s.running_ ∧
    (runTasks gl i ts s).2.drawQueue_ = s.drawQueue_ ∧
    (runTasks gl i ts s).2.gpuTasks_ = s.gpuTasks_ ∧
    (runTasks gl i ts s).2.windowHandle_ = s.windowHandle_ ∧
    (runTasks gl i ts s).2.triangleReady = (s.triangleReady || decide (.demoSetup ∈ ts)) := by
  induction ts generalizing i s with
  | nil => simp [runTasks, tasksCalls]
  | cons t ts ih =>
    have h1 := tryTask_fst t (gl i) s
    obtain ⟨c, a1, a2, a3, a4, a5, a6⟩ := tryTask_snd t (gl i) s
    have hp : tryTask t (gl i) s = (.returned, (tryTask t (gl i) s).2) := by
      rw [← h1]
    have hr : runTasks gl i (t :: ts) s = runTasks gl (i + 1) ts (tryTask t (gl i) s).2 := by
      rw [runTasks, hp]
    rw [hr]
    obtain ⟨b0, b1, b2, b3, b4, b5, b6, b7⟩ := ih (i + 1) (tryTask t (gl i) s).2
    refine ⟨b0, ?_, ?_, ?_, ?_, ?_, ?_, ?_⟩
    · rw [b1, c, tasksCalls, List.append_assoc]
    · rw [b2, a1]
    · rw [b3, a2]
    · rw [b4, a3]
    · rw [b5, a4]
    · rw [b6, a5]
    · rw [b7, a6]
      cases s.triangleReady <;> cases t <;> simp [eq_comm]

theorem present_eq (win : Nat) (list : DrawList) (s : RenderThread) :
    present win list s =
      { s with calls := s.calls ++
          presentCalls win list s.triangleReady s.triangleProgram s.triangleVAO } := by
  cases h : s.triangleReady <;> cases hl : list.isEmpty <;>
    simp [present, presentCalls, demoDrawCalls, dispatchCalls, renderList, emits, h, hl]

theorem drain_spec (s : RenderThread) :
    (drain s).1 = frontList s ∧ (drain s).2.1 = s.gpuTasks_ ∧
    (drain s).2.2 = { s with calls := s.calls ++ (.waitFor 1 :: popCalls s),
                             drawQueue_ := s.drawQueue_.tail, gpuTasks_ := [] } := by
  cases hq : s.drawQueue_ <;> cases hg : s.gpuTasks_ <;>
    simp [drain, emits, frontList, popCalls, hq, hg]

theorem cycle_spec (e : FrameEnv) (s : RenderThread) :
    (cycle e s).1 = .returned ∧
    (cycle e s).2.calls = s.calls ++ cycleCalls e s (cycle e s).2.triangleReady
        (cycle e s).2.triangleProgram (cycle e s).2.triangleVAO ∧
    (cycle e s).2.th_ = s.th_ ∧ (cycle e s).2.running_ = s.running_ ∧
    (cycle e s).2.drawQueue_ = s.drawQueue_.tail ∧ (cycle e s).2.gpuTasks_ = [] ∧
    (cycle e s).2.windowHandle_ = s.windowHandle_ ∧
    (cycle e s).2.triangleReady = (s.triangleReady || decide (.demoSetup ∈ s.gpuTasks_)) := by
  obtain ⟨d1, d2, d3⟩ := drain_spec s
  obtain ⟨b0, b1, b2, b3, b4, b5, b6, b7⟩ := runTasks_spec e.gl 0 (drain s).2.1 (drain s).2.2
  have hp : runTasks e.gl 0 (drain s).2.1 (drain s).2.2 =
      (.returned, (runTasks e.gl 0 (drain s).2.1 (drain s).2.2).2) := by
    rw [← b0]
  have hc : cycle e s = (.returned, present (s.windowHandle_.getD 0) (drain s).1
      (runTasks e.gl 0 (drain s).2.1 (drain s).2.2).2) := by
    rw [cycle, hp]
  rw [hc, present_eq]
  rw [d1, d2, d3] at *
  simp only [b1, b2, b3, b4, b5, b6, b7, List.append_assoc, true_and, cycleCalls,
    List.cons_append, List.nil_append]

/-! ## Facts about histories -/

theorem poppedOf_append (a b : List Call) : poppedOf (a ++ b) = poppedOf a ++ poppedOf b := by
  simp [poppedOf]

theorem submittedOf_append (a b : List Call) :
    submittedOf (a ++ b) = submittedOf a ++ submittedOf b := by
  simp [submittedOf]

theorem invokedOf_append (a b : List Call) : invokedOf (a ++ b) = invokedOf a ++ invokedOf b := by
  simp [invokedOf]

theorem scheduledOf_append (a b : List Call) :
    scheduledOf (a ++ b) = scheduledOf a ++ scheduledOf b := by
  simp [scheduledOf]

theorem taskPhase_elem (c : Call) (h : c.taskPhase = true) :
    c.popped = none ∧ c.submitted = none ∧ c.scheduled = none ∧ c.isDeletion = false ∧
    c.isViewport = false := by
  cases c <;> first
    | exact ⟨rfl, rfl, rfl, rfl, rfl⟩
    | exact absurd h (by simp [Call.taskPhase])

theorem taskPhase_quiet (cs : List Call) (h : cs.all Call.taskPhase = true) :
    poppedOf cs = [] ∧ submittedOf cs = [] ∧ scheduledOf cs = [] ∧
    cs.any Call.isDeletion = false ∧ viewportsOf cs = [] := by
  induction cs with
  | nil => exact ⟨rfl, rfl, rfl, rfl, rfl⟩
  | cons c cs ih =>
    rw [List.all_cons, Bool.and_eq_true] at h
    obtain ⟨i1, i2, i3, i4, i5⟩ := ih h.2
    obtain ⟨c1, c2, c3, c4, c5⟩ := taskPhase_elem c h.1
    refine ⟨?_, ?_, ?_, ?_, ?_⟩
    · rw [poppedOf, List.filterMap_cons, c1]; exact i1
    · rw [submittedOf, List.filterMap_cons, c2]; exact i2
    · rw [scheduledOf, List.filterMap_cons, c3]; exact i3
    · rw [List.any_cons, c4, i4]; rfl
    · rw [viewportsOf, List.filter_cons, c5]; exact i5

theorem invokedOf_setupCalls (gl : SetupEnv) : invokedOf (setupCalls gl) = [] := by
  cases h1 : gl.vs.compileOk <;> cases h2 : gl.fs.compileOk <;> cases h3 : gl.linkOk <;>
    simp [setupCalls, compileCalls, invokedOf, Call.invoked, h1, h2, h3]

theorem invokedOf_tryCalls (t : GpuTask) (gl : SetupEnv) : invokedOf (tryCalls t gl) = [t] := by
  cases t with
  | demoSetup =>
    have h := invokedOf_setupCalls gl
    simp only [invokedOf] at h
    simp [tryCalls, invokedOf, Call.invoked, h]
  | user id raises => cases raises <;> simp [tryCalls, invokedOf, Call.invoked]

theorem invokedOf_tasksCalls (gl : Nat → SetupEnv) (i : Nat) (ts : List GpuTask) :
    invokedOf (tasksCalls gl i ts) = ts := by
  induction ts generalizing i with
  | nil => rfl
  | cons t ts ih => rw [tasksCalls, invokedOf_append, invokedOf_tryCalls, ih]; rfl

theorem presentCalls_quiet (win : Nat) (list : DrawList) (ready : Bool) (prog vao : Nat) :
    poppedOf (presentCalls win list ready prog vao) = [] ∧
    submittedOf (presentCalls win list ready prog vao) = [] ∧
    scheduledOf (presentCalls win list ready prog vao) = [] ∧
    invokedOf (presentCalls win list ready prog vao) = [] ∧
    (presentCalls win list ready prog vao).any Call.isDeletion = false ∧
    viewportsOf (presentCalls win list ready prog vao) = [.glViewport 0 0 800 600] := by
  cases ready <;> cases h : list.isEmpty <;>
    simp [presentCalls, demoDrawCalls, dispatchCalls, h, poppedOf, submittedOf, scheduledOf,
      invokedOf, Call.isDeletion, viewportsOf, Call.popped, Call.submitted, Call.scheduled,
      Call.invoked, Call.isViewport]

theorem popCalls_quiet (s : RenderThread) :
    poppedOf (popCalls s) = s.drawQueue_.head?.toList ∧ submittedOf (popCalls s) = [] ∧
    scheduledOf (popCalls s) = [] ∧ invokedOf (popCalls s) = [] ∧
    (popCalls s).any Call.isDeletion = false ∧ viewportsOf (popCalls s) = [] := by
  cases h : s.drawQueue_ <;>
    simp [popCalls, h, poppedOf, submittedOf, scheduledOf, invokedOf, Call.isDeletion,
      viewportsOf, Call.popped, Call.submitted, Call.scheduled, Call.invoked, Call.isViewport]

/-! ## Composing steps -/

theorem emitted_self (s : RenderThread) : emitted s s = [] := by
  simp [emitted]

theorem emitted_trans {s s1 s2 : RenderThread} (h1 : s1.calls = s.calls ++ emitted s s1)
    (h2 : s2.calls = s1.calls ++ emitted s1 s2) :
    emitted s s2 = emitted s s1 ++ emitted s1 s2 := by
  apply emitted_of_calls
  rw [h2, h1, List.append_assoc]

theorem Quiet.ofCalls {s s1 : RenderThread} (cs : List Call)
    (h : s1.calls = s.calls ++ cs) (h1 : poppedOf cs = []) (h2 : submittedOf cs = [])
    (h3 : invokedOf cs = []) (h4 : cs.any Call.isCycleCall = false)
    (h5 : cs.any Call.isDeletion = true → s.triangleReady = true)
    (h6 : s1.drawQueue_ = s.drawQueue_) (h7 : s1.gpuTasks_ = s.gpuTasks_ ++ scheduledOf cs)
    (h8 : s1.triangleReady = true → s.triangleReady = true)
    (h9 : (scheduledOf cs).filter GpuTask.isUser = []) : Quiet s s1 := by
  have he := emitted_of_calls h
  unfold Quiet
  rw [he]
  exact ⟨h, h1, h2, h3, h4, h5, h6, h7, h8, h9⟩

theorem Quiet.stay (s : RenderThread) : Quiet s s :=
  Quiet.ofCalls [] (by simp) rfl rfl rfl rfl (by simp) rfl (by simp [scheduledOf]) id rfl

theorem Quiet.andThen {s s1 s2 : RenderThread} (a : Quiet s s1) (b : Quiet s1 s2) :
    Quiet s s2 := by
  obtain ⟨a0, a1, a2, a3, a4, a5, a6, a7, a8, a9⟩ := a
  obtain ⟨b0, b1, b2, b3, b4, b5, b6, b7, b8, b9⟩ := b
  have he := emitted_trans a0 b0
  refine Quiet.ofCalls (emitted s s1 ++ emitted s1 s2) ?_ ?_ ?_ ?_ ?_ ?_ ?_ ?_ ?_ ?_
  · rw [b0, a0, List.append_assoc]
  · rw [poppedOf_append, a1, b1]; rfl
  · rw [submittedOf_append, a2, b2]; rfl
  · rw [invokedOf_append, a3, b3]; rfl
  · rw [List.any_append, a4, b4]; rfl
  · intro h
    rw [List.any_append, Bool.or_eq_true] at h
    rcases h with h | h
    · exact a5 h
    · exact a8 (b5 h)
  · rw [b6, a6]
  · rw [b7, a7, scheduledOf_append, List.append_assoc]
  · exact fun h => a8 (b8 h)
  · rw [scheduledOf_append, List.filter_append, a9, b9]; rfl

theorem Facts.fromCalls {s s1 : RenderThread} (cs : List Call)
    (h : s1.calls = s.calls ++ cs)
    (h1 : poppedOf cs ++ s1.drawQueue_ = s.drawQueue_ ++ submittedOf cs)
    (h2 : invokedOf cs ++ s1.gpuTasks_ = s.gpuTasks_ ++ scheduledOf cs)
    (h3 : s1.triangleReady = true → s.triangleReady = true ∨ GpuTask.demoSetup ∈ invokedOf cs)
    (h4 : cs.any Call.isDeletion = true →
      s.triangleReady = true ∨ GpuTask.demoSetup ∈ invokedOf cs) : Facts s s1 := by
  have he := emitted_of_calls h
  unfold Facts
  rw [he]
  exact ⟨h, h1, h2, h3, h4⟩

theorem Quiet.facts {s s1 : RenderThread} (a : Quiet s s1) : Facts s s1 := by
  obtain ⟨a0, a1, a2, a3, a4, a5, a6, a7, a8, _⟩ := a
  refine ⟨a0, ?_, ?_, fun h => Or.inl (a8 h), fun h => Or.inl (a5 h)⟩
  · rw [a1, a2, a6]; simp
  · rw [a3, a7]; simp

theorem Facts.same (s : RenderThread) : Facts s s := (Quiet.stay s).facts

theorem Facts.chain {s s1 s2 : RenderThread} (a : Facts s s1) (b : Facts s1 s2) :
    Facts s s2 := by
  obtain ⟨a0, a1, a2, a3, a4⟩ := a
  obtain ⟨b0, b1, b2, b3, b4⟩ := b
  have hc : s2.calls = s.calls ++ (emitted s s1 ++ emitted s1 s2) := by
    rw [b0, a0, List.append_assoc]
  have hr : s1.triangleReady = true →
      s.triangleReady = true ∨
        GpuTask.demoSetup ∈ invokedOf (emitted s s1 ++ emitted s1 s2) := by
    intro h
    rcases a3 h with h | h
    · exact Or.inl h
    · exact Or.inr (by rw [invokedOf_append]; exact List.mem_append_left _ h)
  refine Facts.fromCalls (emitted s s1 ++ emitted s1 s2) hc ?_ ?_ ?_ ?_
  · rw [poppedOf_append, submittedOf_append, List.append_assoc, b1, ← List.append_assoc, a1,
      List.append_assoc]
  · rw [invokedOf_append, scheduledOf_append, List.append_assoc, b2, ← List.append_assoc, a2,
      List.append_assoc]
  · intro h
    rcases b3 h with h | h
    · exact hr h
    · exact Or.inr (by rw [invokedOf_append]; exact List.mem_append_right _ h)
  · intro h
    rw [List.any_append, Bool.or_eq_true] at h
    rcases h with h | h
    · rcases a4 h with h | h
      · exact Or.inl h
      · exact Or.inr (by rw [invokedOf_append]; exact List.mem_append_left _ h)
    · rcases b4 h with h | h
      · exact hr h
      · exact Or.inr (by rw [invokedOf_append]; exact List.mem_append_right _ h)

/-! ## The steps of the render thread and of the controller -/

theorem cleanupGLFW_eq (s : RenderThread) :
    cleanupGLFW s =
      { s with triangleReady := false, windowHandle_ := none,
               calls := s.calls ++ cleanupCalls s } := by
  cases h1 : s.triangleReady <;> cases h2 : s.windowHandle_ <;>
    simp [cleanupGLFW, cleanupCalls, emits, h1, h2]

theorem cleanupCalls_quiet (s : RenderThread) :
    poppedOf (cleanupCalls s) = [] ∧ submittedOf (cleanupCalls s) = [] ∧
    invokedOf (cleanupCalls s) = [] ∧ scheduledOf (cleanupCalls s) = [] ∧
    (cleanupCalls s).any Call.isCycleCall = false ∧
    (cleanupCalls s).any Call.isDeletion = s.triangleReady := by
  cases h1 : s.triangleReady <;> cases h2 : s.windowHandle_ <;>
    simp [cleanupCalls, h1, h2, poppedOf, submittedOf, invokedOf, scheduledOf, Call.popped,
      Call.submitted, Call.invoked, Call.scheduled, Call.isCycleCall, Call.isDeletion]

theorem cleanupGLFW_quiet (s : RenderThread) : Quiet s (cleanupGLFW s) := by
  obtain ⟨h1, h2, h3, h4, h5, h6⟩ := cleanupCalls_quiet s
  refine Quiet.ofCalls (cleanupCalls s) ?_ h1 h2 h3 h5 ?_ ?_ ?_ ?_ ?_
  · rw [cleanupGLFW_eq]
  · rw [h6]; exact id
  · rw [cleanupGLFW_eq]
  · rw [cleanupGLFW_eq, h4]; simp
  · rw [cleanupGLFW_eq]; simp
  · rw [h4]; rfl

theorem Quiet.congr {s s1 s2 : RenderThread} (a : Quiet s s1) (hc : s2.calls = s1.calls)
    (hd : s2.drawQueue_ = s1.drawQueue_) (hg : s2.gpuTasks_ = s1.gpuTasks_)
    (hr : s2.triangleReady = s1.triangleReady) : Quiet s s2 := by
  unfold Quiet emitted at *
  rw [hc, hd, hg, hr]
  exact a

theorem loopExit_quiet (s : RenderThread) : Quiet s (loopExit s) :=
  (cleanupGLFW_quiet s).congr rfl rfl rfl rfl

theorem emits_quiet (cs : List Call) (s : RenderThread) (h1 : poppedOf cs = [])
    (h2 : submittedOf cs = []) (h3 : invokedOf cs = []) (h4 : cs.any Call.isCycleCall = false)
    (h5 : cs.any Call.isDeletion = false) (h6 : scheduledOf cs = []) : Quiet s (emits cs s) := by
  refine Quiet.ofCalls cs rfl h1 h2 h3 h4 ?_ rfl ?_ id ?_
  · rw [h5]; intro h; cases h
  · rw [h6]; simp [emits]
  · rw [h6]; rfl

theorem scheduleSetup_quiet (s : RenderThread) : Quiet s (scheduleGPU .demoSetup s) :=
  Quiet.ofCalls [.scheduleGPU .demoSetup, .notifyOne] rfl rfl rfl rfl rfl
    (by simp [Call.isDeletion]) rfl rfl id rfl

theorem initGLFW_quiet (ie : InitEnv) (s : RenderThread) : Quiet s (initGLFW ie s) := by
  cases h1 : ie.glfwInitOk
  · have : initGLFW ie s = emits [.glfwInit, .cerr .glfwInitFailed] s := by
      simp [initGLFW, h1, emits]
    rw [this]
    exact emits_quiet _ s rfl rfl rfl rfl rfl rfl
  · cases h2 : ie.window with
    | none =>
      have : initGLFW ie s = emits [.glfwInit, .glfwWindowHint .contextVersionMajor 3,
          .glfwWindowHint .contextVersionMinor 3, .glfwWindowHint .openglProfile 0x00032001,
          .glfwWindowHint .visible 1, .glfwCreateWindow 800 600, .cerr .createWindowFailed,
          .glfwTerminate] s := by
        simp [initGLFW, h1, h2, emits]
      rw [this]
      exact emits_quiet _ s rfl rfl rfl rfl rfl rfl
    | some win =>
      have : initGLFW ie s = { emits [.glfwInit, .glfwWindowHint .contextVersionMajor 3,
          .glfwWindowHint .contextVersionMinor 3, .glfwWindowHint .openglProfile 0x00032001,
          .glfwWindowHint .visible 1, .glfwCreateWindow 800 600] s with
          windowHandle_ := some win } := by
        simp [initGLFW, h1, h2, emits]
      rw [this]
      have hq : Quiet s (emits [.glfwInit, .glfwWindowHint .contextVersionMajor 3,
          .glfwWindowHint .contextVersionMinor 3, .glfwWindowHint .openglProfile 0x00032001,
          .glfwWindowHint .visible 1, .glfwCreateWindow 800 600] s) :=
        emits_quiet _ s rfl rfl rfl rfl rfl rfl
      exact hq.congr rfl rfl rfl rfl

theorem loopEntry_quiet (ie : InitEnv) (s : RenderThread) : Quiet s (loopEntry ie s) := by
  have h0 := initGLFW_quiet ie s
  unfold loopEntry
  simp only []
  cases hw : (initGLFW ie s).windowHandle_ with
  | none => exact h0.congr rfl rfl rfl rfl
  | some win =>
    have h1 := emits_quiet [.glfwMakeContextCurrent win, .glfwSwapInterval 1, .gladLoadGLLoader]
      (initGLFW ie s) rfl rfl rfl rfl rfl rfl
    cases hg : ie.gladOk
    · have h2 := emits_quiet [.cerr .gladFailed] (emits [.glfwMakeContextCurrent win,
        .glfwSwapInterval 1, .gladLoadGLLoader] (initGLFW ie s)) rfl rfl rfl rfl rfl rfl
      exact (((h0.andThen h1).andThen h2).andThen (cleanupGLFW_quiet _)).congr rfl rfl rfl rfl
    · exact ((h0.andThen h1).andThen (scheduleSetup_quiet _)).congr rfl rfl rfl rfl

theorem start_quiet (s : RenderThread) : Quiet s (start s) := by
  cases h : s.running_
  · exact Quiet.ofCalls [.threadSpawn] (by simp [start, h]) rfl rfl rfl rfl
      (by simp [Call.isDeletion]) (by simp [start, h])
      (by simp [start, h, scheduledOf, Call.scheduled]) (by simp [start, h]) rfl
  · have : start s = s := by simp [start, h]
    rw [this]
    exact Quiet.stay s

theorem cycleCalls_spec (e : FrameEnv) (s : RenderThread) (ready : Bool) (prog vao : Nat) :
    poppedOf (cycleCalls e s ready prog vao) = s.drawQueue_.head?.toList ∧
    submittedOf (cycleCalls e s ready prog vao) = [] ∧
    invokedOf (cycleCalls e s ready prog vao) = s.gpuTasks_ ∧
    scheduledOf (cycleCalls e s ready prog vao) = [] ∧
    (cycleCalls e s ready prog vao).any Call.isDeletion = false ∧
    viewportsOf (cycleCalls e s ready prog vao) = [.glViewport 0 0 800 600] := by
  obtain ⟨p1, p2, p3, p4, p5, p6⟩ := popCalls_quiet s
  obtain ⟨t1, t2, t3, t4, t6⟩ := taskPhase_quiet _ (tasksCalls_taskPhase e.gl 0 s.gpuTasks_)
  have t5 := invokedOf_tasksCalls e.gl 0 s.gpuTasks_
  obtain ⟨q1, q2, q3, q4, q5, q6⟩ := presentCalls_quiet (s.windowHandle_.getD 0) (frontList s)
    ready prog vao
  unfold cycleCalls
  refine ⟨?_, ?_, ?_, ?_, ?_, ?_⟩
  · rw [poppedOf, List.filterMap_cons]
    simp only [Call.popped]
    rw [← poppedOf, poppedOf_append, poppedOf_append, p1, t1, q1]
    simp
  · rw [submittedOf, List.filterMap_cons]
    simp only [Call.submitted]
    rw [← submittedOf, submittedOf_append, submittedOf_append, p2, t2, q2]
    rfl
  · rw [invokedOf, List.filterMap_cons]
    simp only [Call.invoked]
    rw [← invokedOf, invokedOf_append, invokedOf_append, p4, t5, q4]
    simp
  · rw [scheduledOf, List.filterMap_cons]
    simp only [Call.scheduled]
    rw [← scheduledOf, scheduledOf_append, scheduledOf_append, p3, t3, q3]
    rfl
  · rw [List.any_cons, List.any_append, List.any_append, p5, t4, q5]
    rfl
  · rw [viewportsOf, List.filter_cons]
    simp only [Call.isViewport]
    rw [← viewportsOf, viewportsOf, List.filter_append, List.filter_append, ← viewportsOf,
      ← viewportsOf, ← viewportsOf, p6, t6, q6]
    rfl

theorem cycle_facts (e : FrameEnv) (s : RenderThread) : Facts s (cycle e s).2 := by
  obtain ⟨_, c1, _, _, c4, c5, _, c7⟩ := cycle_spec e s
  obtain ⟨k1, k2, k3, k4, k5, _⟩ := cycleCalls_spec e s (cycle e s).2.triangleReady
    (cycle e s).2.triangleProgram (cycle e s).2.triangleVAO
  refine Facts.fromCalls _ c1 ?_ ?_ ?_ ?_
  · rw [k1, k2, c4]
    cases s.drawQueue_ <;> simp
  · rw [k3, k4, c5]
  · intro h
    rw [k3]
    rw [c7] at h
    cases hr : s.triangleReady
    · right
      simpa [hr] using h
    · exact Or.inl rfl
  · intro h
    rw [k5] at h
    cases h

theorem frame_facts (e : FrameEnv) (s : RenderThread) : Facts s (frame e s) := by
  unfold frame
  cases hr : s.running_
  · exact (loopExit_quiet s).facts
  · have h1 := emits_quiet [.glfwWindowShouldClose (s.windowHandle_.getD 0)] s rfl rfl rfl rfl
      rfl rfl
    cases hc : e.shouldClose
    · exact h1.facts.chain (cycle_facts e _)
    · exact (h1.andThen (loopExit_quiet _)).facts

theorem frame_of_not_running (e : FrameEnv) (s : RenderThread) (h : s.running_ = false) :
    frame e s = loopExit s := by
  simp [frame, h]

theorem loopEntry_fields (ie : InitEnv) (s : RenderThread) :
    (loopEntry ie s).running_ = s.running_ ∧
    ((loopEntry ie s).th_ = .looping ∨ (loopEntry ie s).th_ = .exited) ∧
    ((loopEntry ie s).th_ = .exited → s.windowHandle_ = none → s.triangleReady = false →
      (loopEntry ie s).windowHandle_ = none ∧ (loopEntry ie s).triangleReady = false) ∧
    (s.triangleReady = false → (loopEntry ie s).triangleReady = false) := by
  cases h1 : ie.glfwInitOk <;> cases h2 : ie.window <;> cases h3 : ie.gladOk <;>
    cases h4 : s.windowHandle_ <;>
    simp [loopEntry, initGLFW, cleanupGLFW_eq, scheduleGPU, emits, h1, h2, h3, h4]

theorem loopExit_fields (s : RenderThread) :
    (loopExit s).running_ = s.running_ ∧ (loopExit s).th_ = .exited ∧
    (loopExit s).windowHandle_ = none ∧ (loopExit s).triangleReady = false := by
  simp [loopExit, cleanupGLFW_eq]

theorem frame_fields (e : FrameEnv) (s : RenderThread) :
    (frame e s).running_ = s.running_ ∧
    (((frame e s).th_ = .exited ∧ (frame e s).windowHandle_ = none ∧
        (frame e s).triangleReady = false) ∨
      ((frame e s).th_ = s.th_ ∧ s.running_ = true ∧ e.shouldClose = false)) := by
  cases hr : s.running_
  · rw [frame_of_not_running e s hr]
    obtain ⟨a, b, c, d⟩ := loopExit_fields s
    exact ⟨a.trans hr, Or.inl ⟨b, c, d⟩⟩
  · cases hc : e.shouldClose
    · have : frame e s = (cycle e (emits [.glfwWindowShouldClose (s.windowHandle_.getD 0)] s)).2 := by
        simp [frame, hr, hc]
      rw [this]
      obtain ⟨_, _, c2, c3, _⟩ := cycle_spec e
        (emits [.glfwWindowShouldClose (s.windowHandle_.getD 0)] s)
      exact ⟨c3.trans hr, Or.inr ⟨c2, rfl, rfl⟩⟩
    · have : frame e s = loopExit (emits [.glfwWindowShouldClose (s.windowHandle_.getD 0)] s) := by
        simp [frame, hr, hc]
      rw [this]
      obtain ⟨a, b, c, d⟩ := loopExit_fields
        (emits [.glfwWindowShouldClose (s.windowHandle_.getD 0)] s)
      exact ⟨a.trans hr, Or.inl ⟨b, c, d⟩⟩

theorem join_quiet (ie : InitEnv) (s : RenderThread) (hr : s.running_ = false) :
    Quiet s (join ie s) := by
  have h1 : Quiet s (if s.th_ = .spawned then loopEntry ie s else s) := by
    split
    · exact loopEntry_quiet ie s
    · exact Quiet.stay s
  have hr1 : (if s.th_ = .spawned then loopEntry ie s else s).running_ = false := by
    split
    · rw [(loopEntry_fields ie s).1, hr]
    · exact hr
  have hj : join ie s =
      { emits [.threadJoin]
          (if (if s.th_ = .spawned then loopEntry ie s else s).th_ = .looping then
            frame FrameEnv.idle (if s.th_ = .spawned then loopEntry ie s else s)
          else (if s.th_ = .spawned then loopEntry ie s else s)) with th_ := .notAThread } := rfl
  rw [hj]
  generalize (if s.th_ = .spawned then loopEntry ie s else s) = s1 at h1 hr1
  have h2 : Quiet s1 (if s1.th_ = .looping then frame FrameEnv.idle s1 else s1) := by
    split
    · rw [frame_of_not_running _ _ hr1]
      exact loopExit_quiet s1
    · exact Quiet.stay s1
  have h3 := h1.andThen h2
  have h4 := emits_quiet [.threadJoin] (if s1.th_ = .looping then frame FrameEnv.idle s1 else s1)
    rfl rfl rfl rfl rfl rfl
  exact (h3.andThen h4).congr rfl rfl rfl rfl

theorem stop_quiet (ie : InitEnv) (s : RenderThread) : Quiet s (stop ie s) := by
  unfold stop
  cases hr : s.running_
  · exact Quiet.stay s
  · have h1 : Quiet s (emits [.notifyAll] { s with running_ := false }) :=
      (emits_quiet [.notifyAll] s rfl rfl rfl rfl rfl rfl).congr rfl rfl rfl rfl
    simp only [Bool.not_true, Bool.false_eq_true, if_false]
    split
    · exact h1.andThen (join_quiet ie _ rfl)
    · exact h1

theorem step_facts (s : RenderThread) (ev : Event) : Facts s (step s ev) := by
  cases ev with
  | start => exact (start_quiet s).facts
  | stop ie => exact (stop_quiet ie s).facts
  | submitDrawList b =>
    exact Facts.fromCalls [.submitDrawList b, .notifyOne] rfl rfl
      (by simp [step, submitDrawList, invokedOf, scheduledOf, Call.invoked, Call.scheduled])
      Or.inl (by simp [Call.isDeletion])
  | scheduleGPU id raises =>
    exact Facts.fromCalls [.scheduleGPU (.user id raises), .notifyOne] rfl
      (by simp [step, scheduleGPU, poppedOf, submittedOf, Call.popped, Call.submitted]) rfl
      Or.inl (by simp [Call.isDeletion])
  | threadInit ie =>
    show Facts s (if s.th_ = .spawned then loopEntry ie s else s)
    split
    · exact (loopEntry_quiet ie s).facts
    · exact Facts.same s
  | frame e =>
    show Facts s (if s.th_ = .looping then frame e s else s)
    split
    · exact frame_facts e s
    · exact Facts.same s

theorem run_nil (s : RenderThread) : run s [] = s := rfl

theorem run_cons (s : RenderThread) (ev : Event) (evs : List Event) :
    run s (ev :: evs) = run (step s ev) evs := rfl

theorem run_append (s : RenderThread) (a b : List Event) :
    run s (a ++ b) = run (run s a) b := by
  simp [run, List.foldl_append]

theorem run_facts (s : RenderThread) (evs : List Event) : Facts s (run s evs) := by
  induction evs generalizing s with
  | nil => exact Facts.same s
  | cons ev evs ih => exact (step_facts s ev).chain (ih (step s ev))

/-! ## The class invariant -/

theorem join_fields (ie : InitEnv) (s : RenderThread) (hr : s.running_ = false)
    (hw : s.th_ ≠ .looping → s.windowHandle_ = none ∧ s.triangleReady = false) :
    (join ie s).th_ = .notAThread ∧ (join ie s).running_ = false ∧
    (join ie s).windowHandle_ = none ∧ (join ie s).triangleReady = false := by
  have hj : join ie s =
      { emits [.threadJoin]
          (if (if s.th_ = .spawned then loopEntry ie s else s).th_ = .looping then
            frame FrameEnv.idle (if s.th_ = .spawned then loopEntry ie s else s)
          else (if s.th_ = .spawned then loopEntry ie s else s)) with th_ := .notAThread } := rfl
  have h1 : (if s.th_ = .spawned then loopEntry ie s else s).running_ = false ∧
      ((if s.th_ = .spawned then loopEntry ie s else s).th_ ≠ .looping →
        (if s.th_ = .spawned then loopEntry ie s else s).windowHandle_ = none ∧
        (if s.th_ = .spawned then loopEntry ie s else s).triangleReady = false) := by
    split
    · rename_i hs
      obtain ⟨a, b, c, _⟩ := loopEntry_fields ie s
      obtain ⟨w, r⟩ := hw (by rw [hs]; decide)
      refine ⟨a.trans hr, fun hn => ?_⟩
      rcases b with b | b
      · exact absurd b hn
      · exact c b w r
    · exact ⟨hr, hw⟩
  rw [hj]
  generalize (if s.th_ = .spawned then loopEntry ie s else s) = s1 at h1
  obtain ⟨r1, w1⟩ := h1
  refine ⟨rfl, ?_, ?_, ?_⟩
  · show (if s1.th_ = .looping then frame FrameEnv.idle s1 else s1).running_ = false
    split
    · rw [(frame_fields _ s1).1, r1]
    · exact r1
  · show (if s1.th_ = .looping then frame FrameEnv.idle s1 else s1).windowHandle_ = none
    split
    · rw [frame_of_not_running _ _ r1]
      exact (loopExit_fields s1).2.2.1
    · rename_i hn
      exact (w1 hn).1
  · show (if s1.th_ = .looping then frame FrameEnv.idle s1 else s1).triangleReady = false
    split
    · rw [frame_of_not_running _ _ r1]
      exact (loopExit_fields s1).2.2.2
    · rename_i hn
      exact (w1 hn).2

theorem stop_fields (ie : InitEnv) (s : RenderThread) (h : Wf s) :
    (stop ie s).running_ = false ∧ (stop ie s).th_ = .notAThread ∧
    (stop ie s).windowHandle_ = none ∧ (stop ie s).triangleReady = false := by
  obtain ⟨w1, w2⟩ := h
  cases hr : s.running_
  · have : stop ie s = s := by simp [stop, hr]
    rw [this]
    have ht := w1 hr
    obtain ⟨a, b⟩ := w2 (by rw [ht]; decide)
    exact ⟨hr, ht, a, b⟩
  · by_cases ht : s.th_ = .notAThread
    · have hs : stop ie s = emits [.notifyAll] { s with running_ := false } := by
        simp [stop, hr, ht, ThreadState.joinable, emits]
      rw [hs]
      obtain ⟨a, b⟩ := w2 (by rw [ht]; decide)
      exact ⟨rfl, ht, a, b⟩
    · have hs : stop ie s = join ie (emits [.notifyAll] { s with running_ := false }) := by
        cases h3 : s.th_
        · exact absurd h3 ht
        all_goals simp [stop, hr, h3, ThreadState.joinable, emits]
      rw [hs]
      obtain ⟨a, b, c, d⟩ := join_fields ie (emits [.notifyAll] { s with running_ := false })
        rfl w2
      exact ⟨b, a, c, d⟩

theorem step_wf (s : RenderThread) (ev : Event) (h : Wf s) : Wf (step s ev) := by
  cases ev with
  | start =>
    show Wf (start s)
    cases hr : s.running_
    · have ht := h.1 hr
      obtain ⟨a, b⟩ := h.2 (by rw [ht]; decide)
      refine ⟨?_, ?_⟩ <;> simp [start, hr, a, b]
    · have : start s = s := by simp [start, hr]
      rw [this]
      exact h
  | stop ie =>
    obtain ⟨a, b, c, d⟩ := stop_fields ie s h
    exact ⟨fun _ => b, fun _ => ⟨c, d⟩⟩
  | submitDrawList b => exact h
  | scheduleGPU id raises => exact h
  | threadInit ie =>
    show Wf (if s.th_ = .spawned then loopEntry ie s else s)
    split
    · rename_i hs
      obtain ⟨a, b, c, _⟩ := loopEntry_fields ie s
      obtain ⟨w, r⟩ := h.2 (by rw [hs]; decide)
      refine ⟨fun hf => ?_, fun hn => ?_⟩
      · rw [a] at hf
        have := h.1 hf
        rw [hs] at this
        cases this
      · rcases b with b | b
        · exact absurd b hn
        · exact c b w r
    · exact h
  | frame e =>
    show Wf (if s.th_ = .looping then frame e s else s)
    split
    · rename_i hs
      obtain ⟨a, b⟩ := frame_fields e s
      refine ⟨fun hf => ?_, fun hn => ?_⟩
      · rw [a] at hf
        have := h.1 hf
        rw [hs] at this
        cases this
      · rcases b with ⟨_, b2, b3⟩ | ⟨b1, _, _⟩
        · exact ⟨b2, b3⟩
        · rw [b1] at hn
          exact absurd hs hn
    · exact h

theorem run_wf (s : RenderThread) (evs : List Event) (h : Wf s) : Wf (run s evs) := by
  induction evs generalizing s with
  | nil => exact h
  | cons ev evs ih => exact ih (step s ev) (step_wf s ev h)

theorem new_wf : Wf RenderThread.new :=
  ⟨fun _ => rfl, fun _ => ⟨rfl, rfl⟩⟩

/-! ## Submissions seen in the history -/

theorem cycle_emitted (e : FrameEnv) (s : RenderThread) :
    emitted s (cycle e s).2 = cycleCalls e s (cycle e s).2.triangleReady
      (cycle e s).2.triangleProgram (cycle e s).2.triangleVAO :=
  emitted_of_calls (cycle_spec e s).2.1

theorem frame_submitted (e : FrameEnv) (s : RenderThread) :
    submittedOf (emitted s (frame e s)) = [] := by
  cases hr : s.running_
  · rw [frame_of_not_running e s hr]
    exact (loopExit_quiet s).2.2.1
  · have h1 := emits_quiet [.glfwWindowShouldClose (s.windowHandle_.getD 0)] s rfl rfl rfl rfl
      rfl rfl
    cases hc : e.shouldClose
    · have : frame e s = (cycle e (emits [.glfwWindowShouldClose (s.windowHandle_.getD 0)] s)).2 := by
        simp [frame, hr, hc]
      rw [this, emitted_trans h1.1 (cycle_facts e _).1, submittedOf_append, h1.2.2.1,
        cycle_emitted, (cycleCalls_spec _ _ _ _ _).2.1]
      rfl
    · have : frame e s = loopExit (emits [.glfwWindowShouldClose (s.windowHandle_.getD 0)] s) := by
        simp [frame, hr, hc]
      rw [this]
      exact (h1.andThen (loopExit_quiet _)).2.2.1

theorem step_submitted (s : RenderThread) (ev : Event) :
    submittedOf (emitted s (step s ev)) = batchesOf [ev] := by
  cases ev with
  | start => exact (start_quiet s).2.2.1
  | stop ie => exact (stop_quiet ie s).2.2.1
  | submitDrawList b =>
    have : emitted s (step s (.submitDrawList b)) = [.submitDrawList b, .notifyOne] :=
      emitted_of_calls rfl
    rw [this]
    rfl
  | scheduleGPU id raises =>
    have : emitted s (step s (.scheduleGPU id raises)) =
        [.scheduleGPU (.user id raises), .notifyOne] := emitted_of_calls rfl
    rw [this]
    rfl
  | threadInit ie =>
    show submittedOf (emitted s (if s.th_ = .spawned then loopEntry ie s else s)) = []
    split
    · exact (loopEntry_quiet ie s).2.2.1
    · rw [emitted_self]; rfl
  | frame e =>
    show submittedOf (emitted s (if s.th_ = .looping then frame e s else s)) = []
    split
    · exact frame_submitted e s
    · rw [emitted_self]; rfl

theorem batchesOf_cons (ev : Event) (evs : List Event) :
    batchesOf (ev :: evs) = batchesOf [ev] ++ batchesOf evs := by
  cases ev <;> simp [batchesOf]

theorem run_submitted (s : RenderThread) (evs : List Event) :
    submittedOf (emitted s (run s evs)) = batchesOf evs := by
  induction evs generalizing s with
  | nil => rw [run_nil, emitted_self]; rfl
  | cons ev evs ih =>
    rw [run_cons, emitted_trans (step_facts s ev).1 (run_facts (step s ev) evs).1,
      submittedOf_append, step_submitted, ih, ← batchesOf_cons]

/-! ## Order inside one loop body -/

theorem taskPhase_elem_draw (c : Call) (h : c.taskPhase = true) :
    c.isDrawOrSwap = false ∧ c.isClear = false := by
  cases c <;> first
    | exact ⟨rfl, rfl⟩
    | exact absurd h (by simp [Call.taskPhase])

theorem taskPhase_no_draw (cs : List Call) (h : cs.all Call.taskPhase = true) :
    cs.any Call.isDrawOrSwap = false ∧ cs.any Call.isClear = false := by
  induction cs with
  | nil => exact ⟨rfl, rfl⟩
  | cons c cs ih =>
    rw [List.all_cons, Bool.and_eq_true] at h
    obtain ⟨i1, i2⟩ := ih h.2
    obtain ⟨c1, c2⟩ := taskPhase_elem_draw c h.1
    refine ⟨?_, ?_⟩
    · rw [List.any_cons, c1, i1]; rfl
    · rw [List.any_cons, c2, i2]; rfl

theorem popCalls_no_draw (s : RenderThread) :
    (popCalls s).any Call.isDrawOrSwap = false ∧ (popCalls s).any Call.isClear = false := by
  cases h : s.drawQueue_ <;> simp [popCalls, h, Call.isDrawOrSwap, Call.isClear]

theorem taskFaults_setupCalls (gl : SetupEnv) : (setupCalls gl).countP Call.isTaskFault = 0 := by
  cases h1 : gl.vs.compileOk <;> cases h2 : gl.fs.compileOk <;> cases h3 : gl.linkOk <;>
    simp [setupCalls, compileCalls, h1, h2, h3, Call.isTaskFault]

theorem taskFaults_tasksCalls (gl : Nat → SetupEnv) (i : Nat) (ts : List GpuTask) :
    (tasksCalls gl i ts).countP Call.isTaskFault = ts.countP GpuTask.raises := by
  induction ts generalizing i with
  | nil => rfl
  | cons t ts ih =>
    rw [tasksCalls, List.countP_append, ih]
    cases t with
    | demoSetup =>
      have := taskFaults_setupCalls (gl i)
      simp [tryCalls, List.countP_cons, Call.isTaskFault, GpuTask.raises, this]
    | user id raises =>
      cases raises <;> simp [tryCalls, List.countP_cons, Call.isTaskFault, GpuTask.raises]
      omega

theorem cycle_emitted_split (e : FrameEnv) (s : RenderThread) :
    emitted s (cycle e s).2 =
      (.waitFor 1 :: popCalls s ++ tasksCalls e.gl 0 s.gpuTasks_) ++
        presentCalls (s.windowHandle_.getD 0) (frontList s) (cycle e s).2.triangleReady
          (cycle e s).2.triangleProgram (cycle e s).2.triangleVAO := by
  rw [cycle_emitted, cycleCalls]
  simp

/-! ## Runs without a loop body -/

theorem Quiet.calm {s s1 : RenderThread} (a : Quiet s s1) : Calm s s1 :=
  ⟨a.1, a.2.2.2.2.1, a.2.2.2.2.2.1, a.2.2.2.2.2.2.2.2.1⟩

theorem Calm.seq {s s1 s2 : RenderThread} (a : Calm s s1) (b : Calm s1 s2) : Calm s s2 := by
  obtain ⟨a0, a1, a2, a3⟩ := a
  obtain ⟨b0, b1, b2, b3⟩ := b
  have he := emitted_trans a0 b0
  unfold Calm
  rw [he]
  refine ⟨?_, ?_, ?_, fun h => a3 (b3 h)⟩
  · rw [b0, a0, List.append_assoc]
  · rw [List.any_append, a1, b1]; rfl
  · intro h
    rw [List.any_append, Bool.or_eq_true] at h
    rcases h with h | h
    · exact a2 h
    · exact a3 (b2 h)

theorem step_calm (s : RenderThread) (ev : Event) (h : ev.notFrame = true) :
    Calm s (step s ev) := by
  cases ev with
  | start => exact (start_quiet s).calm
  | stop ie => exact (stop_quiet ie s).calm
  | submitDrawList b =>
    have he : emitted s (step s (.submitDrawList b)) = [.submitDrawList b, .notifyOne] :=
      emitted_of_calls rfl
    unfold Calm
    rw [he]
    exact ⟨rfl, rfl, by simp [Call.isDeletion], id⟩
  | scheduleGPU id raises =>
    have he : emitted s (step s (.scheduleGPU id raises)) =
        [.scheduleGPU (.user id raises), .notifyOne] := emitted_of_calls rfl
    unfold Calm
    rw [he]
    exact ⟨rfl, rfl, by simp [Call.isDeletion], fun h => h⟩
  | threadInit ie =>
    show Calm s (if s.th_ = .spawned then loopEntry ie s else s)
    split
    · exact (loopEntry_quiet ie s).calm
    · exact (Quiet.stay s).calm
  | frame e => cases h

theorem run_calm (s : RenderThread) (evs : List Event) (h : ∀ ev ∈ evs, ev.notFrame = true) :
    Calm s (run s evs) := by
  induction evs generalizing s with
  | nil => exact (Quiet.stay s).calm
  | cons ev evs ih =>
    exact (step_calm s ev (h ev (List.mem_cons_self _ _))).seq
      (ih (step s ev) (fun x hx => h x (List.mem_cons_of_mem _ hx)))

theorem join_running (ie : InitEnv) (s : RenderThread) (hr : s.running_ = false) :
    (join ie s).th_ = .notAThread ∧ (join ie s).running_ = false := by
  have h1 : (if s.th_ = .spawned then loopEntry ie s else s).running_ = false := by
    split
    · rw [(loopEntry_fields ie s).1, hr]
    · exact hr
  refine ⟨rfl, ?_⟩
  show (if (if s.th_ = .spawned then loopEntry ie s else s).th_ = .looping then
      frame FrameEnv.idle (if s.th_ = .spawned then loopEntry ie s else s)
    else (if s.th_ = .spawned then loopEntry ie s else s)).running_ = false
  generalize (if s.th_ = .spawned then loopEntry ie s else s) = s1 at h1
  split
  · rw [(frame_fields _ _).1, h1]
  · exact h1

theorem stop_of_not_running (ie : InitEnv) (s : RenderThread) (h : s.running_ = false) :
    stop ie s = s := by
  simp [stop, h]

theorem stop_running (ie : InitEnv) (s : RenderThread) :
    (stop ie s).running_ = false ∧ (s.running_ = true → (stop ie s).th_ = .notAThread) := by
  cases hr : s.running_
  · have : stop ie s = s := by simp [stop, hr]
    rw [this]
    exact ⟨hr, fun h => by cases h⟩
  · by_cases ht : s.th_ = .notAThread
    · have hs : stop ie s = emits [.notifyAll] { s with running_ := false } := by
        simp [stop, hr, ht, ThreadState.joinable, emits]
      rw [hs]
      exact ⟨rfl, fun _ => ht⟩
    · have hs : stop ie s = join ie (emits [.notifyAll] { s with running_ := false }) := by
        cases h3 : s.th_
        · exact absurd h3 ht
        all_goals simp [stop, hr, h3, ThreadState.joinable, emits]
      rw [hs]
      obtain ⟨a, b⟩ := join_running ie (emits [.notifyAll] { s with running_ := false }) rfl
      exact ⟨b, fun _ => a⟩

/-! ## After the loop has exited on a close request -/

theorem tasksOf_cons (ev : Event) (evs : List Event) :
    tasksOf (ev :: evs) = tasksOf [ev] ++ tasksOf evs := by
  cases ev <;> simp [tasksOf]

theorem step_after_exit (s : RenderThread) (ev : Event) (ht : s.th_ = .exited)
    (hr : s.running_ = true) (hn : ev.notStop = true) :
    (step s ev).calls = s.calls ++ emitted s (step s ev) ∧
    (step s ev).th_ = .exited ∧ (step s ev).running_ = true ∧
    (step s ev).drawQueue_ = s.drawQueue_ ++ batchesOf [ev] ∧
    (step s ev).gpuTasks_ = s.gpuTasks_ ++ tasksOf [ev] ∧
    poppedOf (emitted s (step s ev)) = [] ∧ invokedOf (emitted s (step s ev)) = [] ∧
    (emitted s (step s ev)).any Call.isSpawn = false := by
  cases ev with
  | start =>
    have : step s .start = s := by simp [step, start, hr]
    rw [this, emitted_self]
    simp [ht, hr, batchesOf, tasksOf, poppedOf, invokedOf]
  | stop ie => cases hn
  | submitDrawList b =>
    have he : emitted s (step s (.submitDrawList b)) = [.submitDrawList b, .notifyOne] :=
      emitted_of_calls rfl
    rw [he]
    exact ⟨rfl, ht, hr, rfl, by simp [step, submitDrawList, tasksOf], rfl, rfl, rfl⟩
  | scheduleGPU id raises =>
    have he : emitted s (step s (.scheduleGPU id raises)) =
        [.scheduleGPU (.user id raises), .notifyOne] := emitted_of_calls rfl
    rw [he]
    exact ⟨rfl, ht, hr, by simp [step, scheduleGPU, batchesOf], rfl, rfl, rfl, rfl⟩
  | threadInit ie =>
    have : step s (.threadInit ie) = s := by simp [step, ht]
    rw [this, emitted_self]
    simp [ht, hr, batchesOf, tasksOf, poppedOf, invokedOf]
  | frame e =>
    have : step s (.frame e) = s := by simp [step, ht]
    rw [this, emitted_self]
    simp [ht, hr, batchesOf, tasksOf, poppedOf, invokedOf]

theorem run_after_exit (s : RenderThread) (evs : List Event) (ht : s.th_ = .exited)
    (hr : s.running_ = true) (hn : ∀ ev ∈ evs, ev.notStop = true) :
    (run s evs).calls = s.calls ++ emitted s (run s evs) ∧
    (run s evs).th_ = .exited ∧ (run s evs).running_ = true ∧
    (run s evs).drawQueue_ = s.drawQueue_ ++ batchesOf evs ∧
    (run s evs).gpuTasks_ = s.gpuTasks_ ++ tasksOf evs ∧
    poppedOf (emitted s (run s evs)) = [] ∧ invokedOf (emitted s (run s evs)) = [] ∧
    (emitted s (run s evs)).any Call.isSpawn = false := by
  induction evs generalizing s with
  | nil =>
    rw [run_nil, emitted_self]
    simp [ht, hr, batchesOf, tasksOf, poppedOf, invokedOf]
  | cons ev evs ih =>
    obtain ⟨a0, a1, a2, a3, a4, a5, a6, a7⟩ :=
      step_after_exit s ev ht hr (hn ev (List.mem_cons_self _ _))
    obtain ⟨b0, b1, b2, b3, b4, b5, b6, b7⟩ :=
      ih (step s ev) a1 a2 (fun x hx => hn x (List.mem_cons_of_mem _ hx))
    rw [run_cons, emitted_trans a0 b0]
    refine ⟨?_, b1, b2, ?_, ?_, ?_, ?_, ?_⟩
    · rw [b0, a0, List.append_assoc]
    · rw [b3, a3, List.append_assoc, ← batchesOf_cons]
    · rw [b4, a4, List.append_assoc, ← tasksOf_cons]
    · rw [poppedOf_append, a5, b5]; rfl
    · rw [invokedOf_append, a6, b6]; rfl
    · rw [List.any_append, a7, b7]; rfl

theorem frame_close (e : FrameEnv) (s : RenderThread) (hr : s.running_ = true)
    (hc : e.shouldClose = true) :
    frame e s = loopExit (emits [.glfwWindowShouldClose (s.windowHandle_.getD 0)] s) := by
  simp [frame, hr, hc]

theorem frame_open (e : FrameEnv) (s : RenderThread) (hr : s.running_ = true)
    (hc : e.shouldClose = false) :
    frame e s = (cycle e (emits [.glfwWindowShouldClose (s.windowHandle_.getD 0)] s)).2 := by
  simp [frame, hr, hc]

theorem frame_open_history (e : FrameEnv) (s : RenderThread) (hr : s.running_ = true)
    (hc : e.shouldClose = false) :
    poppedOf (emitted s (frame e s)) = s.drawQueue_.head?.toList ∧
    invokedOf (emitted s (frame e s)) = s.gpuTasks_ := by
  have h1 := emits_quiet [.glfwWindowShouldClose (s.windowHandle_.getD 0)] s rfl rfl rfl rfl
    rfl rfl
  rw [frame_open e s hr hc, emitted_trans h1.1 (cycle_facts e _).1, poppedOf_append,
    invokedOf_append, h1.2.1, h1.2.2.2.1, cycle_emitted,
    (cycleCalls_spec _ _ _ _ _).1, (cycleCalls_spec _ _ _ _ _).2.2.1]
  exact ⟨rfl, rfl⟩

/-! ## Scheduling and invocation along a run -/

theorem Quiet.userNone {s s1 : RenderThread} (a : Quiet s s1) :
    (scheduledOf (emitted s s1)).filter GpuTask.isUser = [] :=
  a.2.2.2.2.2.2.2.2.2

theorem Quiet.still {s s1 : RenderThread} (a : Quiet s s1) : Still s s1 :=
  ⟨a.1, a.2.2.2.1, a.2.2.2.2.2.2.2.1⟩

theorem Still.next {s s1 s2 : RenderThread} (a : Still s s1) (b : Still s1 s2) : Still s s2 := by
  obtain ⟨a0, a1, a2⟩ := a
  obtain ⟨b0, b1, b2⟩ := b
  have he := emitted_trans a0 b0
  unfold Still
  rw [he]
  refine ⟨?_, ?_, ?_⟩
  · rw [b0, a0, List.append_assoc]
  · rw [invokedOf_append, a1, b1]; rfl
  · rw [b2, a2, scheduledOf_append, List.append_assoc]

theorem frame_exit_quiet (e : FrameEnv) (s : RenderThread) (h : e.shouldClose = true) :
    Quiet s (frame e s) := by
  cases hr : s.running_
  · rw [frame_of_not_running e s hr]
    exact loopExit_quiet s
  · rw [frame_close e s hr h]
    exact (emits_quiet [.glfwWindowShouldClose (s.windowHandle_.getD 0)] s rfl rfl rfl rfl
      rfl rfl).andThen (loopExit_quiet _)

theorem frame_open_scheduled (e : FrameEnv) (s : RenderThread) (hr : s.running_ = true)
    (hc : e.shouldClose = false) :
    scheduledOf (emitted s (frame e s)) = [] ∧ (frame e s).gpuTasks_ = [] := by
  have h1 := emits_quiet [.glfwWindowShouldClose (s.windowHandle_.getD 0)] s rfl rfl rfl rfl
    rfl rfl
  have h2 : emitted s (emits [.glfwWindowShouldClose (s.windowHandle_.getD 0)] s) =
      [.glfwWindowShouldClose (s.windowHandle_.getD 0)] := emitted_of_calls rfl
  rw [frame_open e s hr hc, emitted_trans h1.1 (cycle_facts e _).1, scheduledOf_append, h2,
    cycle_emitted, (cycleCalls_spec _ _ _ _ _).2.2.2.1]
  exact ⟨rfl, (cycle_spec e _).2.2.2.2.2.1⟩

theorem frame_user_scheduled (e : FrameEnv) (s : RenderThread) :
    (scheduledOf (emitted s (frame e s))).filter GpuTask.isUser = [] := by
  cases hc : e.shouldClose
  · cases hr : s.running_
    · rw [frame_of_not_running e s hr]
      exact (loopExit_quiet s).userNone
    · rw [(frame_open_scheduled e s hr hc).1]
      rfl
  · exact (frame_exit_quiet e s hc).userNone

theorem step_user_scheduled (s : RenderThread) (ev : Event) :
    (scheduledOf (emitted s (step s ev))).filter GpuTask.isUser = tasksOf [ev] := by
  cases ev with
  | start => exact (start_quiet s).userNone
  | stop ie => exact (stop_quiet ie s).userNone
  | submitDrawList b =>
    have : emitted s (step s (.submitDrawList b)) = [.submitDrawList b, .notifyOne] :=
      emitted_of_calls rfl
    rw [this]
    rfl
  | scheduleGPU id raises =>
    have : emitted s (step s (.scheduleGPU id raises)) =
        [.scheduleGPU (.user id raises), .notifyOne] := emitted_of_calls rfl
    rw [this]
    rfl
  | threadInit ie =>
    show (scheduledOf (emitted s (if s.th_ = .spawned then loopEntry ie s else s))).filter
      GpuTask.isUser = []
    split
    · exact (loopEntry_quiet ie s).userNone
    · rw [emitted_self]; rfl
  | frame e =>
    show (scheduledOf (emitted s (if s.th_ = .looping then frame e s else s))).filter
      GpuTask.isUser = []
    split
    · exact frame_user_scheduled e s
    · rw [emitted_self]; rfl

theorem run_user_scheduled (s : RenderThread) (evs : List Event) :
    (scheduledOf (emitted s (run s evs))).filter GpuTask.isUser = tasksOf evs := by
  induction evs generalizing s with
  | nil => rw [run_nil, emitted_self]; rfl
  | cons ev evs ih =>
    rw [run_cons, emitted_trans (step_facts s ev).1 (run_facts (step s ev) evs).1,
      scheduledOf_append, List.filter_append, step_user_scheduled, ih, ← tasksOf_cons]

theorem step_still (s : RenderThread) (ev : Event) (h : ev.noCycle = true) :
    Still s (step s ev) := by
  cases ev with
  | start => exact (start_quiet s).still
  | stop ie => exact (stop_quiet ie s).still
  | submitDrawList b =>
    have he : emitted s (step s (.submitDrawList b)) = [.submitDrawList b, .notifyOne] :=
      emitted_of_calls rfl
    unfold Still
    rw [he]
    exact ⟨rfl, rfl, by simp [step, submitDrawList, scheduledOf, Call.scheduled]⟩
  | scheduleGPU id raises =>
    have he : emitted s (step s (.scheduleGPU id raises)) =
        [.scheduleGPU (.user id raises), .notifyOne] := emitted_of_calls rfl
    unfold Still
    rw [he]
    exact ⟨rfl, rfl, rfl⟩
  | threadInit ie =>
    show Still s (if s.th_ = .spawned then loopEntry ie s else s)
    split
    · exact (loopEntry_quiet ie s).still
    · exact (Quiet.stay s).still
  | frame e =>
    show Still s (if s.th_ = .looping then frame e s else s)
    split
    · exact (frame_exit_quiet e s h).still
    · exact (Quiet.stay s).still

theorem run_still (s : RenderThread) (evs : List Event) (h : ∀ ev ∈ evs, ev.noCycle = true) :
    Still s (run s evs) := by
  induction evs generalizing s with
  | nil => exact (Quiet.stay s).still
  | cons ev evs ih =>
    exact (step_still s ev (h ev (List.mem_cons_self _ _))).next
      (ih (step s ev) (fun x hx => h x (List.mem_cons_of_mem _ hx)))

/-! ## The claims -/

/-- C1: starting from an empty draw queue, after any finite interleaving of public
calls and render-thread steps the batches popped so far (in order) followed by the
batches still in `drawQueue_` are exactly the batches submitted, in submission order; so
the popped batches are an initial segment of the submitted ones. -/
theorem C1_draw_queue_fifo (s0 : RenderThread) (evs : List Event) (h : s0.drawQueue_ = []) :
    poppedOf (emitted s0 (run s0 evs)) ++ (run s0 evs).drawQueue_ = batchesOf evs ∧
    poppedOf (emitted s0 (run s0 evs)) <+: batchesOf evs := by
  have h1 := (run_facts s0 evs).2.1
  rw [run_submitted, h, List.nil_append] at h1
  exact ⟨h1, ⟨_, h1⟩⟩

/-- Witness of C1: three batches submitted around two loop iterations of a started
controller. -/
theorem C1_draw_queue_fifo_witness :
    RenderThread.new.drawQueue_ = [] ∧
    (poppedOf (emitted RenderThread.new (run RenderThread.new
        [.start, .submitDrawList (sampleBatch 1), .submitDrawList (sampleBatch 2),
          .threadInit (InitEnv.ok 9), .frame FrameEnv.idle, .submitDrawList (sampleBatch 3),
          .frame FrameEnv.idle])) ++
      (run RenderThread.new
        [.start, .submitDrawList (sampleBatch 1), .submitDrawList (sampleBatch 2),
          .threadInit (InitEnv.ok 9), .frame FrameEnv.idle, .submitDrawList (sampleBatch 3),
          .frame FrameEnv.idle]).drawQueue_ =
      batchesOf [.start, .submitDrawList (sampleBatch 1), .submitDrawList (sampleBatch 2),
          .threadInit (InitEnv.ok 9), .frame FrameEnv.idle, .submitDrawList (sampleBatch 3),
          .frame FrameEnv.idle] ∧
     poppedOf (emitted RenderThread.new (run RenderThread.new
        [.start, .submitDrawList (sampleBatch 1), .submitDrawList (sampleBatch 2),
          .threadInit (InitEnv.ok 9), .frame FrameEnv.idle, .submitDrawList (sampleBatch 3),
          .frame FrameEnv.idle])) <+:
      batchesOf [.start, .submitDrawList (sampleBatch 1), .submitDrawList (sampleBatch 2),
          .threadInit (InitEnv.ok 9), .frame FrameEnv.idle, .submitDrawList (sampleBatch 3),
          .frame FrameEnv.idle]) :=
  ⟨rfl, C1_draw_queue_fifo RenderThread.new _ rfl⟩

/-- C3: a loop body pops exactly the head of the draw queue when there is one and leaves
the tail in its order; entered with an empty queue it pops nothing and leaves the queue
empty.  At most one batch is popped per loop body. -/
theorem C3_one_batch_per_cycle (e : FrameEnv) (s : RenderThread) :
    poppedOf (emitted s (cycle e s).2) = s.drawQueue_.head?.toList ∧
    (cycle e s).2.drawQueue_ = s.drawQueue_.tail ∧
    (poppedOf (emitted s (cycle e s).2)).length ≤ 1 := by
  have h1 : poppedOf (emitted s (cycle e s).2) = s.drawQueue_.head?.toList := by
    rw [cycle_emitted]
    exact (cycleCalls_spec _ _ _ _ _).1
  refine ⟨h1, (cycle_spec e s).2.2.2.2.1, ?_⟩
  rw [h1]
  cases s.drawQueue_ <;> simp

/-- C4: a loop body leaves the shared `gpuTasks_` empty, and its history is the wait and
the pop, then the histories of all tasks that were queued, invoked in submission order,
then the frame (viewport, clear, draw, dispatch, swap, poll): every invocation precedes
the draw dispatch and the buffer swap of that same loop body. -/
theorem C4_drain_all_tasks (e : FrameEnv) (s : RenderThread) :
    (cycle e s).2.gpuTasks_ = [] ∧
    emitted s (cycle e s).2 =
      (.waitFor 1 :: popCalls s ++ tasksCalls e.gl 0 s.gpuTasks_) ++
        presentCalls (s.windowHandle_.getD 0) (frontList s) (cycle e s).2.triangleReady
          (cycle e s).2.triangleProgram (cycle e s).2.triangleVAO ∧
    invokedOf (.waitFor 1 :: popCalls s ++ tasksCalls e.gl 0 s.gpuTasks_) = s.gpuTasks_ ∧
    (.waitFor 1 :: popCalls s ++ tasksCalls e.gl 0 s.gpuTasks_).any Call.isDrawOrSwap = false ∧
    invokedOf (presentCalls (s.windowHandle_.getD 0) (frontList s) (cycle e s).2.triangleReady
      (cycle e s).2.triangleProgram (cycle e s).2.triangleVAO) = [] ∧
    dispatchCalls (frontList s) ++ [.glfwSwapBuffers (s.windowHandle_.getD 0), .glfwPollEvents] <:+
      presentCalls (s.windowHandle_.getD 0) (frontList s) (cycle e s).2.triangleReady
        (cycle e s).2.triangleProgram (cycle e s).2.triangleVAO := by
  refine ⟨(cycle_spec e s).2.2.2.2.2.1, cycle_emitted_split e s, ?_, ?_,
    (presentCalls_quiet _ _ _ _ _).2.2.2.1, ?_⟩
  · have h1 : invokedOf (Call.waitFor 1 :: popCalls s ++ tasksCalls e.gl 0 s.gpuTasks_) =
        invokedOf (popCalls s) ++ invokedOf (tasksCalls e.gl 0 s.gpuTasks_) := by
      rw [← invokedOf_append]; rfl
    rw [h1, (popCalls_quiet s).2.2.2.1, invokedOf_tasksCalls]
    rfl
  · rw [List.cons_append, List.any_cons, List.any_append, (popCalls_no_draw s).1,
      (taskPhase_no_draw _ (tasksCalls_taskPhase e.gl 0 s.gpuTasks_)).1]
    rfl
  · refine ⟨[.glViewport 0 0 800 600, .glClearColor 100 120 150 1000, .glClear true true] ++
      demoDrawCalls (cycle e s).2.triangleReady (cycle e s).2.triangleProgram
        (cycle e s).2.triangleVAO, ?_⟩
    simp [presentCalls]

/-- C5: whatever tasks a loop body drains and whichever of them raise, the loop body
returns normally, every drained task is invoked exactly once and in order, the handler
logs once per raising task, and the history ends with the complete frame: viewport and
clear, the demonstration draw if ready, the dispatch of a non-empty batch, swap and poll. -/
theorem C5_task_faults_isolated (e : FrameEnv) (s : RenderThread) :
    (cycle e s).1 = .returned ∧
    invokedOf (emitted s (cycle e s).2) = s.gpuTasks_ ∧
    (emitted s (cycle e s).2).countP Call.isTaskFault = s.gpuTasks_.countP GpuTask.raises ∧
    presentCalls (s.windowHandle_.getD 0) (frontList s) (cycle e s).2.triangleReady
        (cycle e s).2.triangleProgram (cycle e s).2.triangleVAO <:+ emitted s (cycle e s).2 ∧
    List.Sublist
      ([.glClear true true] ++ dispatchCalls (frontList s) ++
        [.glfwSwapBuffers (s.windowHandle_.getD 0), .glfwPollEvents])
      (emitted s (cycle e s).2) := by
  have hs := cycle_emitted_split e s
  refine ⟨(cycle_spec e s).1, ?_, ?_, ⟨_, hs.symm⟩, ?_⟩
  · rw [cycle_emitted]
    exact (cycleCalls_spec _ _ _ _ _).2.2.1
  · rw [hs, List.countP_append, List.cons_append, List.countP_cons, List.countP_append,
      taskFaults_tasksCalls]
    have h1 : (popCalls s).countP Call.isTaskFault = 0 := by
      cases h : s.drawQueue_ <;> simp [popCalls, h, Call.isTaskFault]
    have h2 : (presentCalls (s.windowHandle_.getD 0) (frontList s) (cycle e s).2.triangleReady
        (cycle e s).2.triangleProgram (cycle e s).2.triangleVAO).countP Call.isTaskFault = 0 := by
      cases (cycle e s).2.triangleReady <;> cases h : (frontList s).isEmpty <;>
        simp [presentCalls, demoDrawCalls, dispatchCalls, h, Call.isTaskFault]
    rw [h1, h2]
    simp [Call.isTaskFault]
  · rw [hs]
    refine List.Sublist.trans ?_ (List.sublist_append_right _ _)
    have hp : presentCalls (s.windowHandle_.getD 0) (frontList s) (cycle e s).2.triangleReady
        (cycle e s).2.triangleProgram (cycle e s).2.triangleVAO =
        [.glViewport 0 0 800 600, .glClearColor 100 120 150 1000, .glClear true true] ++
          (demoDrawCalls (cycle e s).2.triangleReady (cycle e s).2.triangleProgram
              (cycle e s).2.triangleVAO ++
            (dispatchCalls (frontList s) ++
              [.glfwSwapBuffers (s.windowHandle_.getD 0), .glfwPollEvents])) := by
      simp [presentCalls]
    rw [hp, List.append_assoc]
    exact List.Sublist.append (((List.Sublist.refl _).cons _).cons _)
      (List.sublist_append_right _ _)

/-- C9, as stated, fails: with a surface of 1024 x 768 the loop body still issues the
viewport command for 800 x 600. -/
theorem C9_viewport_counterexample :
    (FrameEnv.resized 1024 768).surfaceWidth = 1024 ∧
    (FrameEnv.resized 1024 768).surfaceHeight = 768 ∧
    viewportsOf (emitted startedState (cycle (FrameEnv.resized 1024 768) startedState).2) =
      [.glViewport 0 0 800 600] ∧
    Call.glViewport 0 0 1024 768 ∉
      emitted startedState (cycle (FrameEnv.resized 1024 768) startedState).2 := by
  decide

/-- C9, amended: every loop body issues exactly one viewport command, with origin (0,0)
and the fixed size 800 x 600 whatever the current size of the surface; it equals the
surface size exactly when the surface is 800 x 600.  It is followed at once by the clear
colour and the clear of the colour and depth buffers, and no clear precedes it. -/
theorem C9_viewport_fixed (e : FrameEnv) (s : RenderThread) :
    viewportsOf (emitted s (cycle e s).2) = [.glViewport 0 0 800 600] ∧
    (Call.glViewport 0 0 e.surfaceWidth e.surfaceHeight ∈ emitted s (cycle e s).2 ↔
      e.surfaceWidth = 800 ∧ e.surfaceHeight = 600) ∧
    emitted s (cycle e s).2 =
      (.waitFor 1 :: popCalls s ++ tasksCalls e.gl 0 s.gpuTasks_) ++
        (.glViewport 0 0 800 600 :: .glClearColor 100 120 150 1000 :: .glClear true true ::
          (demoDrawCalls (cycle e s).2.triangleReady (cycle e s).2.triangleProgram
              (cycle e s).2.triangleVAO ++ dispatchCalls (frontList s) ++
            [.glfwSwapBuffers (s.windowHandle_.getD 0), .glfwPollEvents])) ∧
    (.waitFor 1 :: popCalls s ++ tasksCalls e.gl 0 s.gpuTasks_).any Call.isClear = false := by
  have hv : viewportsOf (emitted s (cycle e s).2) = [.glViewport 0 0 800 600] := by
    rw [cycle_emitted]
    exact (cycleCalls_spec _ _ _ _ _).2.2.2.2.2
  refine ⟨hv, ?_, ?_, ?_⟩
  · constructor
    · intro h
      have h1 : Call.glViewport 0 0 e.surfaceWidth e.surfaceHeight ∈
          viewportsOf (emitted s (cycle e s).2) := by
        rw [viewportsOf, List.mem_filter]
        exact ⟨h, rfl⟩
      rw [hv, List.mem_singleton] at h1
      injection h1 with _ _ h2 h3
      exact ⟨h2, h3⟩
    · rintro ⟨h2, h3⟩
      rw [h2, h3]
      have h1 : Call.glViewport 0 0 800 600 ∈ viewportsOf (emitted s (cycle e s).2) := by
        rw [hv]
        exact List.mem_singleton.mpr rfl
      rw [viewportsOf, List.mem_filter] at h1
      exact h1.1
  · rw [cycle_emitted_split]
    simp [presentCalls]
  · rw [List.cons_append, List.any_cons, List.any_append, (popCalls_no_draw s).2,
      (taskPhase_no_draw _ (tasksCalls_taskPhase e.gl 0 s.gpuTasks_)).2]
    rfl

/-- C2, as stated, fails: a task scheduled after the last loop body and before the window
is asked to close is never invoked although the loop has exited. -/
theorem C2_tasks_counterexample :
    (run RenderThread.new [.start, .threadInit (InitEnv.ok 9), .frame FrameEnv.idle,
      .scheduleGPU 7 false, .frame FrameEnv.closing]).th_ = .exited ∧
    GpuTask.user 7 false ∈ scheduledOf (run RenderThread.new [.start,
      .threadInit (InitEnv.ok 9), .frame FrameEnv.idle, .scheduleGPU 7 false,
      .frame FrameEnv.closing]).calls ∧
    GpuTask.user 7 false ∉ invokedOf (run RenderThread.new [.start,
      .threadInit (InitEnv.ok 9), .frame FrameEnv.idle, .scheduleGPU 7 false,
      .frame FrameEnv.closing]).calls := by
  decide

/-- C2, amended: starting from an empty task queue, at every point of every run the tasks
invoked so far (in order) followed by the tasks still in `gpuTasks_` are exactly the tasks
passed to `scheduleGPU` so far, in submission order; among these the callers' tasks are
exactly those of the `scheduleGPU` events of the run.  So every task is invoked at most
once and in submission order, and what was invoked stays invoked.  If a loop body runs
next, then after it every task scheduled before it has been invoked exactly once and
`gpuTasks_` is empty.  If instead only events without a loop body follow (calls by
producers, `stop`, a loop iteration that finds the window closing), nothing more is
invoked and every task they schedule stays in `gpuTasks_`, also after the loop has exited. -/
theorem C2_tasks_fifo (s0 : RenderThread) (evs : List Event) (h : s0.gpuTasks_ = []) :
    invokedOf (emitted s0 (run s0 evs)) ++ (run s0 evs).gpuTasks_ =
      scheduledOf (emitted s0 (run s0 evs)) ∧
    (scheduledOf (emitted s0 (run s0 evs))).filter GpuTask.isUser = tasksOf evs ∧
    invokedOf (emitted s0 (run s0 evs)) <+: scheduledOf (emitted s0 (run s0 evs)) ∧
    (∀ t, (invokedOf (emitted s0 (run s0 evs))).count t + (run s0 evs).gpuTasks_.count t =
      (scheduledOf (emitted s0 (run s0 evs))).count t) ∧
    (∀ evs2 : List Event,
      invokedOf (emitted s0 (run s0 evs)) <+: invokedOf (emitted s0 (run s0 (evs ++ evs2)))) ∧
    (∀ e : FrameEnv, (run s0 evs).th_ = .looping → (run s0 evs).running_ = true →
      e.shouldClose = false →
      invokedOf (emitted s0 (run s0 (evs ++ [.frame e]))) =
        scheduledOf (emitted s0 (run s0 evs)) ∧
      scheduledOf (emitted s0 (run s0 (evs ++ [.frame e]))) =
        scheduledOf (emitted s0 (run s0 evs)) ∧
      (run s0 (evs ++ [.frame e])).gpuTasks_ = []) ∧
    (∀ evs2 : List Event, (∀ ev ∈ evs2, ev.noCycle = true) →
      invokedOf (emitted s0 (run s0 (evs ++ evs2))) = invokedOf (emitted s0 (run s0 evs)) ∧
      (run s0 (evs ++ evs2)).gpuTasks_ =
        (run s0 evs).gpuTasks_ ++ scheduledOf (emitted (run s0 evs) (run s0 (evs ++ evs2))) ∧
      (scheduledOf (emitted (run s0 evs) (run s0 (evs ++ evs2)))).filter GpuTask.isUser =
        tasksOf evs2 ∧
      List.Sublist (tasksOf evs2) (run s0 (evs ++ evs2)).gpuTasks_) := by
  have h1 := (run_facts s0 evs).2.2.1
  rw [h, List.nil_append] at h1
  have hsplit : ∀ evs2 : List Event, emitted s0 (run s0 (evs ++ evs2)) =
      emitted s0 (run s0 evs) ++ emitted (run s0 evs) (run s0 (evs ++ evs2)) := by
    intro evs2
    rw [run_append]
    exact emitted_trans (run_facts s0 evs).1 (run_facts (run s0 evs) evs2).1
  refine ⟨h1, run_user_scheduled s0 evs, ⟨_, h1⟩, fun t => ?_, fun evs2 => ?_,
    fun e hl hr hc => ?_, fun evs2 hn => ?_⟩
  · rw [← h1, List.count_append]
  · rw [hsplit, invokedOf_append]
    exact List.prefix_append _ _
  · have hf : run s0 (evs ++ [.frame e]) = frame e (run s0 evs) := by
      rw [run_append]
      show (if (run s0 evs).th_ = .looping then frame e (run s0 evs) else run s0 evs) = _
      rw [if_pos hl]
    have e1 := (frame_open_history e (run s0 evs) hr hc).2
    obtain ⟨e2, e3⟩ := frame_open_scheduled e (run s0 evs) hr hc
    rw [hsplit, invokedOf_append, scheduledOf_append, hf, e1, e2, e3, h1, List.append_nil]
    exact ⟨rfl, rfl, rfl⟩
  · have hs := run_still (run s0 evs) evs2 hn
    have hu := run_user_scheduled (run s0 evs) evs2
    rw [← run_append] at hs hu
    obtain ⟨_, s1, s2⟩ := hs
    refine ⟨?_, s2, hu, ?_⟩
    · rw [hsplit, invokedOf_append, s1, List.append_nil]
    · rw [s2, ← hu]
      exact (List.filter_sublist _).trans (List.sublist_append_right _ _)

/-- Witness of C2 (amended): the run of the counterexample, and a loop body entered with
the demonstration setup and one caller's task queued. -/
theorem C2_tasks_fifo_witness :
    RenderThread.new.gpuTasks_ = [] ∧
    invokedOf (emitted RenderThread.new (run RenderThread.new [.start,
        .threadInit (InitEnv.ok 9), .frame FrameEnv.idle, .scheduleGPU 7 false,
        .frame FrameEnv.closing])) ++
      (run RenderThread.new [.start, .threadInit (InitEnv.ok 9), .frame FrameEnv.idle,
        .scheduleGPU 7 false, .frame FrameEnv.closing]).gpuTasks_ =
      scheduledOf (emitted RenderThread.new (run RenderThread.new [.start,
        .threadInit (InitEnv.ok 9), .frame FrameEnv.idle, .scheduleGPU 7 false,
        .frame FrameEnv.closing])) ∧
    (run RenderThread.new [.start, .threadInit (InitEnv.ok 9), .scheduleGPU 7 false]).th_
      = .looping ∧
    (run RenderThread.new [.start, .threadInit (InitEnv.ok 9), .scheduleGPU 7 false]).running_
      = true ∧
    FrameEnv.idle.shouldClose = false ∧
    invokedOf (emitted RenderThread.new (run RenderThread.new
        ([.start, .threadInit (InitEnv.ok 9), .scheduleGPU 7 false] ++ [.frame FrameEnv.idle]))) =
      scheduledOf (emitted RenderThread.new (run RenderThread.new
        [.start, .threadInit (InitEnv.ok 9), .scheduleGPU 7 false])) ∧
    scheduledOf (emitted RenderThread.new (run RenderThread.new
        [.start, .threadInit (InitEnv.ok 9), .scheduleGPU 7 false])) =
      [.demoSetup, .user 7 false] :=
  ⟨rfl, (C2_tasks_fifo RenderThread.new _ rfl).1, rfl, rfl, rfl,
    ((C2_tasks_fifo RenderThread.new [.start, .threadInit (InitEnv.ok 9), .scheduleGPU 7 false]
      rfl).2.2.2.2.2.1 FrameEnv.idle rfl rfl rfl).1, by decide⟩

/-- C6, as stated, fails: the vertex shader does not compile, the error is logged, and
the ready flag is true after the loop body that ran the setup; the next loop body issues
the demonstration draw. -/
theorem C6_ready_counterexample :
    ((FrameEnv.resized 800 600).gl 0).vs.compileOk = false ∧
    invokedOf (emitted startedState (cycle (FrameEnv.resized 800 600) startedState).2) =
      [.demoSetup] ∧
    Call.cerr .shaderCompileError ∈
      emitted startedState (cycle (FrameEnv.resized 800 600) startedState).2 ∧
    (cycle (FrameEnv.resized 800 600) startedState).2.triangleReady = true ∧
    Call.glDrawArrays 0 3 ∈
      emitted (cycle (FrameEnv.resized 800 600) startedState).2
        (cycle FrameEnv.idle (cycle (FrameEnv.resized 800 600) startedState).2).2 := by
  decide

/-- C6, amended: the demonstration setup closure returns with the ready flag true and the
program handle stored whatever the compile and link statuses are; a failed compile or
link is only logged.  Once the flag is true every later loop body keeps it true and
issues the demonstration draw. -/
theorem C6_ready_after_setup (gl : SetupEnv) (s : RenderThread) :
    (invoke .demoSetup gl s).1 = .returned ∧
    (invoke .demoSetup gl s).2.triangleReady = true ∧
    (invoke .demoSetup gl s).2.triangleProgram = gl.prog ∧
    (Call.cerr .shaderCompileError ∈ emitted s (invoke .demoSetup gl s).2 ↔
      (gl.vs.compileOk = false ∨ gl.fs.compileOk = false)) ∧
    (Call.cerr .programLinkError ∈ emitted s (invoke .demoSetup gl s).2 ↔
      gl.linkOk = false) ∧
    ∀ (e : FrameEnv) (s1 : RenderThread), s1.triangleReady = true →
      (cycle e s1).2.triangleReady = true ∧
      Call.glDrawArrays 0 3 ∈ emitted s1 (cycle e s1).2 := by
  have he : emitted s (invoke .demoSetup gl s).2 = .invoke .demoSetup :: setupCalls gl := by
    apply emitted_of_calls
    simp [invoke, demoSetup_eq, emits]
  refine ⟨rfl, ?_, ?_, ?_, ?_, ?_⟩
  · simp [invoke, demoSetup_eq]
  · simp [invoke, demoSetup_eq]
  · rw [he]
    cases h1 : gl.vs.compileOk <;> cases h2 : gl.fs.compileOk <;> cases h3 : gl.linkOk <;>
      simp [setupCalls, compileCalls, h1, h2, h3]
  · rw [he]
    cases h1 : gl.vs.compileOk <;> cases h2 : gl.fs.compileOk <;> cases h3 : gl.linkOk <;>
      simp [setupCalls, compileCalls, h1, h2, h3]
  · intro e s1 hr
    have h7 := (cycle_spec e s1).2.2.2.2.2.2.2
    rw [hr, Bool.true_or] at h7
    refine ⟨h7, ?_⟩
    rw [cycle_emitted_split, h7]
    apply List.mem_append_right
    simp [presentCalls, demoDrawCalls]

/-- Witness of C6 (amended): a state whose ready flag is set, reached through a setup
with a failed compile. -/
theorem C6_ready_after_setup_witness :
    (cycle (FrameEnv.resized 800 600) startedState).2.triangleReady = true ∧
    (cycle FrameEnv.idle (cycle (FrameEnv.resized 800 600) startedState).2).2.triangleReady
      = true ∧
    Call.glDrawArrays 0 3 ∈
      emitted (cycle (FrameEnv.resized 800 600) startedState).2
        (cycle FrameEnv.idle (cycle (FrameEnv.resized 800 600) startedState).2).2 :=
  ⟨by decide,
    (C6_ready_after_setup ((FrameEnv.resized 800 600).gl 0) startedState).2.2.2.2.2
      FrameEnv.idle (cycle (FrameEnv.resized 800 600) startedState).2 (by decide)⟩

/-- C7: `start` and `stop` are idempotent.  After `start` the running flag is set, the
queues are as before, and two calls create one thread if the controller was not running
and none if it was; after `stop` the running flag is clear and the thread is joined (for
a controller that was running, and for every well-formed one).  `start` on a running controller and `stop` on one that
is not running change nothing. -/
theorem C7_start_stop_idempotent (s : RenderThread) (ie ie2 : InitEnv) :
    start (start s) = start s ∧ (start s).running_ = true ∧
    (start s).drawQueue_ = s.drawQueue_ ∧ (start s).gpuTasks_ = s.gpuTasks_ ∧
    (emitted s (start (start s))).countP Call.isSpawn = (if s.running_ then 0 else 1) ∧
    stop ie2 (stop ie s) = stop ie s ∧ (stop ie s).running_ = false ∧
    (s.running_ = true → (stop ie s).th_ = .notAThread) ∧
    (Wf s → (stop ie s).th_ = .notAThread) ∧
    (s.running_ = true → start s = s) ∧ (s.running_ = false → stop ie s = s) := by
  obtain ⟨k1, k2⟩ := stop_running ie s
  refine ⟨?_, ?_, ?_, ?_, ?_, ?_, k1, k2, fun h => (stop_fields ie s h).2.1, ?_, ?_⟩
  · cases h : s.running_ <;> simp [start, h]
  · cases h : s.running_ <;> simp [start, h]
  · cases h : s.running_ <;> simp [start, h]
  · cases h : s.running_ <;> simp [start, h]
  · cases h : s.running_ <;> simp [start, h, emitted, Call.isSpawn]
  · exact stop_of_not_running ie2 _ k1
  · intro h; simp [start, h]
  · exact stop_of_not_running ie s

/-- Witness of C7: a fresh controller, started twice, and a running one, stopped. -/
theorem C7_start_stop_idempotent_witness :
    start (start RenderThread.new) = start RenderThread.new ∧
    ((start RenderThread.new).running_ = true →
      (stop (InitEnv.ok 9) (start RenderThread.new)).th_ = .notAThread) ∧
    (RenderThread.new.running_ = false → stop (InitEnv.ok 9) RenderThread.new = RenderThread.new) :=
  ⟨(C7_start_stop_idempotent RenderThread.new (InitEnv.ok 9) (InitEnv.ok 9)).1,
    (C7_start_stop_idempotent (start RenderThread.new) (InitEnv.ok 9)
      (InitEnv.ok 9)).2.2.2.2.2.2.2.1,
    (C7_start_stop_idempotent RenderThread.new (InitEnv.ok 9)
      (InitEnv.ok 9)).2.2.2.2.2.2.2.2.2.2⟩

/-- C8: from a well-formed state whose ready flag is clear, after any run: whenever the
render thread is not inside its loop (not begun, returned on any path, or joined) the
window handle is null and the ready flag is false; GPU objects have been deleted only if
the demonstration setup was invoked; and if the run contains no loop iteration, such as
`stop` arriving before the first one, no loop body ran and nothing was deleted. -/
theorem C8_exit_releases (s0 : RenderThread) (evs : List Event) (hw : Wf s0)
    (hr : s0.triangleReady = false) :
    ((run s0 evs).th_ ≠ .looping →
      (run s0 evs).windowHandle_ = none ∧ (run s0 evs).triangleReady = false) ∧
    ((emitted s0 (run s0 evs)).any Call.isDeletion = true →
      GpuTask.demoSetup ∈ invokedOf (emitted s0 (run s0 evs))) ∧
    ((∀ ev ∈ evs, ev.notFrame = true) →
      (emitted s0 (run s0 evs)).any Call.isCycleCall = false ∧
      (emitted s0 (run s0 evs)).any Call.isDeletion = false) := by
  refine ⟨(run_wf s0 evs hw).2, fun h => ?_, fun h => ?_⟩
  · rcases (run_facts s0 evs).2.2.2.2 h with h1 | h1
    · rw [hr] at h1; cases h1
    · exact h1
  · obtain ⟨_, c1, c2, _⟩ := run_calm s0 evs h
    refine ⟨c1, ?_⟩
    cases hd : (emitted s0 (run s0 evs)).any Call.isDeletion
    · rfl
    · have := c2 hd
      rw [hr] at this
      cases this

/-- Witness of C8: `stop` arrives before the render thread has begun; the thread
initialises, finds the flag clear, runs no loop body and tears down. -/
theorem C8_exit_releases_witness :
    Wf RenderThread.new ∧ RenderThread.new.triangleReady = false ∧
    (run RenderThread.new [.start, .scheduleGPU 1 false, .stop (InitEnv.ok 9)]).th_
      = .notAThread ∧
    ((run RenderThread.new [.start, .scheduleGPU 1 false, .stop (InitEnv.ok 9)]).windowHandle_
        = none ∧
      (run RenderThread.new [.start, .scheduleGPU 1 false, .stop (InitEnv.ok 9)]).triangleReady
        = false) ∧
    ((emitted RenderThread.new (run RenderThread.new
        [.start, .scheduleGPU 1 false, .stop (InitEnv.ok 9)])).any Call.isCycleCall = false ∧
      (emitted RenderThread.new (run RenderThread.new
        [.start, .scheduleGPU 1 false, .stop (InitEnv.ok 9)])).any Call.isDeletion = false) :=
  ⟨new_wf, rfl, rfl,
    (C8_exit_releases RenderThread.new [.start, .scheduleGPU 1 false, .stop (InitEnv.ok 9)]
      new_wf rfl).1 (by decide),
    (C8_exit_releases RenderThread.new [.start, .scheduleGPU 1 false, .stop (InitEnv.ok 9)]
      new_wf rfl).2.2 (by decide)⟩

/-- C10: when the loop exits because the window was asked to close, the thread has
exited with the running flag still set, so `start` changes nothing.  Through any later
events other than `stop` the flag stays set, no thread is created, nothing is popped or
invoked, and every submission stays queued in order.  After `stop` then `start` a new
thread is created with the queues intact, and once it has initialised its first loop body
pops the oldest queued batch and invokes the queued tasks. -/
theorem C10_close_leaves_running (s : RenderThread) (e e2 : FrameEnv) (evs : List Event)
    (ie : InitEnv) (win : Nat) (hl : s.th_ = .looping) (hr : s.running_ = true)
    (hc : e.shouldClose = true) (hn : ∀ ev ∈ evs, ev.notStop = true)
    (ho : e2.shouldClose = false) :
    (step s (.frame e)).th_ = .exited ∧ (step s (.frame e)).running_ = true ∧
    start (step s (.frame e)) = step s (.frame e) ∧
    (run (step s (.frame e)) evs).th_ = .exited ∧
    (run (step s (.frame e)) evs).running_ = true ∧
    (run (step s (.frame e)) evs).drawQueue_ = s.drawQueue_ ++ batchesOf evs ∧
    (run (step s (.frame e)) evs).gpuTasks_ = s.gpuTasks_ ++ tasksOf evs ∧
    poppedOf (emitted s (run (step s (.frame e)) evs)) = [] ∧
    invokedOf (emitted s (run (step s (.frame e)) evs)) = [] ∧
    (emitted s (run (step s (.frame e)) evs)).any Call.isSpawn = false ∧
    (run (run (step s (.frame e)) evs) [.stop ie, .start]).th_ = .spawned ∧
    (run (run (step s (.frame e)) evs) [.stop ie, .start]).running_ = true ∧
    (run (run (step s (.frame e)) evs) [.stop ie, .start]).drawQueue_ =
      s.drawQueue_ ++ batchesOf evs ∧
    (run (run (step s (.frame e)) evs) [.stop ie, .start]).gpuTasks_ =
      s.gpuTasks_ ++ tasksOf evs ∧
    poppedOf (emitted (run (run (step s (.frame e)) evs)
        [.stop ie, .start, .threadInit (InitEnv.ok win)])
      (run (run (step s (.frame e)) evs)
        [.stop ie, .start, .threadInit (InitEnv.ok win), .frame e2])) =
      (s.drawQueue_ ++ batchesOf evs).head?.toList ∧
    invokedOf (emitted (run (run (step s (.frame e)) evs)
        [.stop ie, .start, .threadInit (InitEnv.ok win)])
      (run (run (step s (.frame e)) evs)
        [.stop ie, .start, .threadInit (InitEnv.ok win), .frame e2])) =
      s.gpuTasks_ ++ tasksOf evs ++ [.demoSetup] := by
  have hf : step s (.frame e) =
      loopExit (emits [.glfwWindowShouldClose (s.windowHandle_.getD 0)] s) := by
    show (if s.th_ = .looping then frame e s else s) = _
    rw [if_pos hl, frame_close e s hr hc]
  have hq : Quiet s (step s (.frame e)) := by
    rw [hf]
    exact (emits_quiet [.glfwWindowShouldClose (s.windowHandle_.getD 0)] s rfl rfl rfl rfl
      rfl rfl).andThen (loopExit_quiet _)
  have f1 : (step s (.frame e)).th_ = .exited := by rw [hf]; rfl
  have f2 : (step s (.frame e)).running_ = true := by
    rw [hf]
    exact (loopExit_fields _).1.trans hr
  have f3 : (step s (.frame e)).drawQueue_ = s.drawQueue_ := hq.2.2.2.2.2.2.1
  have f4 : (step s (.frame e)).gpuTasks_ = s.gpuTasks_ := by
    rw [hf]
    simp [loopExit, cleanupGLFW_eq, emits]
  have f5 : (emitted s (step s (.frame e))).any Call.isSpawn = false := by
    have he : emitted s (step s (.frame e)) =
        .glfwWindowShouldClose (s.windowHandle_.getD 0) ::
          cleanupCalls (emits [.glfwWindowShouldClose (s.windowHandle_.getD 0)] s) := by
      apply emitted_of_calls
      rw [hf]
      simp [loopExit, cleanupGLFW_eq, emits]
    rw [he]
    cases h1 : s.triangleReady <;> cases h2 : s.windowHandle_ <;>
      simp [cleanupCalls, emits, h1, h2, Call.isSpawn]
  obtain ⟨b0, b1, b2, b3, b4, b5, b6, b7⟩ := run_after_exit (step s (.frame e)) evs f1 f2 hn
  have he := emitted_trans hq.1 b0
  generalize run (step s (.frame e)) evs = s1 at *
  have hs : run s1 [.stop ie, .start] =
      { s1 with th_ := .spawned,
                calls := s1.calls ++ [.notifyAll, .threadJoin, .threadSpawn] } := by
    simp [run, step, stop, join, start, emits, b1, b2, ThreadState.joinable]
  have hi : run s1 [.stop ie, .start, .threadInit (InitEnv.ok win)] =
      { s1 with th_ := .looping, windowHandle_ := some win,
                gpuTasks_ := s1.gpuTasks_ ++ [.demoSetup],
                calls := s1.calls ++ [.notifyAll, .threadJoin, .threadSpawn, .glfwInit,
                  .glfwWindowHint .contextVersionMajor 3, .glfwWindowHint .contextVersionMinor 3,
                  .glfwWindowHint .openglProfile 0x00032001, .glfwWindowHint .visible 1,
                  .glfwCreateWindow 800 600, .glfwMakeContextCurrent win, .glfwSwapInterval 1,
                  .gladLoadGLLoader, .scheduleGPU .demoSetup, .notifyOne] } := by
    have : [Event.stop ie, .start, .threadInit (InitEnv.ok win)] =
        [Event.stop ie, .start] ++ [.threadInit (InitEnv.ok win)] := rfl
    rw [this, run_append, hs]
    simp [run, step, loopEntry, initGLFW, scheduleGPU, emits, InitEnv.ok]
  have hp : run s1 [.stop ie, .start, .threadInit (InitEnv.ok win), .frame e2] =
      frame e2 (run s1 [.stop ie, .start, .threadInit (InitEnv.ok win)]) := by
    have : [Event.stop ie, .start, .threadInit (InitEnv.ok win), .frame e2] =
        [Event.stop ie, .start, .threadInit (InitEnv.ok win)] ++ [.frame e2] := rfl
    rw [this, run_append, hi]
    simp [run, step]
  have hh := frame_open_history e2 (run s1 [.stop ie, .start, .threadInit (InitEnv.ok win)])
    (by rw [hi]; exact b2) ho
  refine ⟨f1, f2, ?_, b1, b2, ?_, ?_, ?_, ?_, ?_, ?_, ?_, ?_, ?_, ?_, ?_⟩
  · simp [start, f2]
  · rw [b3, f3]
  · rw [b4, f4]
  · rw [he, poppedOf_append, hq.2.1, b5]; rfl
  · rw [he, invokedOf_append, hq.2.2.2.1, b6]; rfl
  · rw [he, List.any_append, f5, b7]; rfl
  · rw [hs]
  · rw [hs]; exact b2
  · rw [hs]; show s1.drawQueue_ = _; rw [b3, f3]
  · rw [hs]; show s1.gpuTasks_ = _; rw [b4, f4]
  · rw [hp, hh.1, hi]
    show s1.drawQueue_.head?.toList = _
    rw [b3, f3]
  · rw [hp, hh.2, hi]
    show s1.gpuTasks_ ++ [GpuTask.demoSetup] = _
    rw [b4, f4]

/-- Witness of C10: the window of a started controller is asked to close; a batch and a
task handed over afterwards stay queued. -/
theorem C10_close_leaves_running_witness :
    startedState.th_ = .looping ∧ startedState.running_ = true ∧
    FrameEnv.closing.shouldClose = true ∧
    (∀ ev ∈ [Event.submitDrawList (sampleBatch 1), .start, .scheduleGPU 2 false],
      ev.notStop = true) ∧
    FrameEnv.idle.shouldClose = false ∧
    (run (step startedState (.frame FrameEnv.closing))
        [.submitDrawList (sampleBatch 1), .start, .scheduleGPU 2 false]).drawQueue_ =
      startedState.drawQueue_ ++
        batchesOf [.submitDrawList (sampleBatch 1), .start, .scheduleGPU 2 false] :=
  ⟨rfl, rfl, rfl, by decide, rfl,
    (C10_close_leaves_running startedState FrameEnv.closing FrameEnv.idle
      [.submitDrawList (sampleBatch 1), .start, .scheduleGPU 2 false] (InitEnv.ok 9) 9
      rfl rfl rfl (by decide) rfl).2.2.2.2.2.1⟩

end Amethyst
